import Mathlib

/-!
Shallow embedding of the CrystalNet architecture (src/net_models.py).

Tensors are modelled as dense 4-dimensional (batch, channel, height, width)
or 5-dimensional (batch, glass, channel, height, width) arrays of rational
numbers: a shape together with a total data function on natural indices
(entries outside the shape are irrelevant junk).  Rationals stand in for the
idealized real arithmetic of the forward pass; device placement (the
"cuda" argument in TNet) is not part of the functional semantics and is
dropped.  Operations that can raise shape errors in the underlying array
engine (convolution with mismatched channels or too-small spatial size,
concatenation of mismatched tensors, linear layers on a wrong last axis)
return Option, with none standing for the raised error.
-/

structure Tensor4 where
  d0 : ℕ
  d1 : ℕ
  d2 : ℕ
  d3 : ℕ
  data : ℕ → ℕ → ℕ → ℕ → ℚ

structure Tensor5 where
  d0 : ℕ
  d1 : ℕ
  d2 : ℕ
  d3 : ℕ
  d4 : ℕ
  data : ℕ → ℕ → ℕ → ℕ → ℕ → ℚ

/-- The shape of a 4-dimensional tensor. -/
structure Sh where
  n : ℕ
  c : ℕ
  h : ℕ
  w : ℕ
deriving DecidableEq

def Tensor4.sh (x : Tensor4) : Sh := ⟨x.d0, x.d1, x.d2, x.d3⟩

def Tensor4.zeros (n c h w : ℕ) : Tensor4 := ⟨n, c, h, w, fun _ _ _ _ => 0⟩

/-- Extensional equality of tensors: equal shapes and equal entries at every
in-range index. -/
def Tensor4.EqOn (a b : Tensor4) : Prop :=
  a.d0 = b.d0 ∧ a.d1 = b.d1 ∧ a.d2 = b.d2 ∧ a.d3 = b.d3 ∧
    ∀ n, n < a.d0 → ∀ c, c < a.d1 → ∀ h, h < a.d2 → ∀ w, w < a.d3 →
      a.data n c h w = b.data n c h w

instance (a b : Tensor4) : Decidable (a.EqOn b) := by
  unfold Tensor4.EqOn; infer_instance

/-- Pointwise addition (torch +); in every reachable use the two operands have
the same shape, so the result takes the left operand's shape. -/
def Tensor4.add (a b : Tensor4) : Tensor4 :=
  ⟨a.d0, a.d1, a.d2, a.d3, fun n c h w => a.data n c h w + b.data n c h w⟩

/-- Scalar multiplication (torch scalar *). -/
def Tensor4.smul (q : ℚ) (a : Tensor4) : Tensor4 :=
  ⟨a.d0, a.d1, a.d2, a.d3, fun n c h w => q * a.data n c h w⟩

/-- nn.ReLU: pointwise max with 0. -/
def relu (x : Tensor4) : Tensor4 :=
  ⟨x.d0, x.d1, x.d2, x.d3, fun n c h w => max 0 (x.data n c h w)⟩

/-- nn.LeakyReLU with the default negative slope 0.01. -/
def leakyRelu (x : Tensor4) : Tensor4 :=
  ⟨x.d0, x.d1, x.d2, x.d3, fun n c h w =>
    if 0 ≤ x.data n c h w then x.data n c h w else x.data n c h w / 100⟩

/-- nn.Conv2d with square kernel k, stride 1, symmetric zero padding p.
Raises (none) when the input channel count differs from the configured one or
when the output would be empty. -/
def conv2d (inC outC k p : ℕ) (w : ℕ → ℕ → ℕ → ℕ → ℚ) (bias : ℕ → ℚ)
    (x : Tensor4) : Option Tensor4 :=
  if x.d1 = inC ∧ k ≤ x.d2 + 2 * p ∧ k ≤ x.d3 + 2 * p then
    some ⟨x.d0, outC, x.d2 + 2 * p + 1 - k, x.d3 + 2 * p + 1 - k,
      fun b co y xx =>
        bias co + ∑ ci ∈ Finset.range inC, ∑ u ∈ Finset.range k,
          ∑ v ∈ Finset.range k,
            w co ci u v *
              (if p ≤ y + u ∧ y + u - p < x.d2 ∧ p ≤ xx + v ∧ xx + v - p < x.d3
               then x.data b ci (y + u - p) (xx + v - p) else 0)⟩
  else none

/-- nn.ConvTranspose2d with kernel 2 and stride 2 (the non-bilinear Up mode). -/
def convT2 (inC outC : ℕ) (w : ℕ → ℕ → ℕ → ℕ → ℚ) (bias : ℕ → ℚ)
    (x : Tensor4) : Option Tensor4 :=
  if x.d1 = inC ∧ 1 ≤ x.d2 ∧ 1 ≤ x.d3 then
    some ⟨x.d0, outC, 2 * x.d2, 2 * x.d3,
      fun b co y xx =>
        bias co + ∑ ci ∈ Finset.range inC, ∑ u ∈ Finset.range 2,
          ∑ v ∈ Finset.range 2,
            (if u ≤ y ∧ (y - u) % 2 = 0 ∧ (y - u) / 2 < x.d2 ∧
                v ≤ xx ∧ (xx - v) % 2 = 0 ∧ (xx - v) / 2 < x.d3
             then w ci co u v * x.data b ci ((y - u) / 2) ((xx - v) / 2)
             else 0)⟩
  else none

/-- nn.MaxPool2d(2): 2 by 2 non-overlapping max pooling, floor semantics. -/
def maxpool2 (x : Tensor4) : Option Tensor4 :=
  if 2 ≤ x.d2 ∧ 2 ≤ x.d3 then
    some ⟨x.d0, x.d1, x.d2 / 2, x.d3 / 2,
      fun b c h w =>
        max (max (x.data b c (2 * h) (2 * w)) (x.data b c (2 * h) (2 * w + 1)))
            (max (x.data b c (2 * h + 1) (2 * w)) (x.data b c (2 * h + 1) (2 * w + 1)))⟩
  else none

/-- nn.Upsample(scale_factor=2, mode=bilinear, align_corners=True). -/
def upsample2 (x : Tensor4) : Option Tensor4 :=
  if 1 ≤ x.d2 ∧ 1 ≤ x.d3 then
    some ⟨x.d0, x.d1, 2 * x.d2, 2 * x.d3,
      fun b c y xx =>
        let sy : ℚ := (y : ℚ) * ((x.d2 : ℚ) - 1) / (2 * (x.d2 : ℚ) - 1)
        let sx : ℚ := (xx : ℚ) * ((x.d3 : ℚ) - 1) / (2 * (x.d3 : ℚ) - 1)
        let y0 : ℕ := (⌊sy⌋).toNat
        let x0 : ℕ := (⌊sx⌋).toNat
        let y1 : ℕ := min (y0 + 1) (x.d2 - 1)
        let x1 : ℕ := min (x0 + 1) (x.d3 - 1)
        let wy : ℚ := sy - (y0 : ℚ)
        let wx : ℚ := sx - (x0 : ℚ)
        (1 - wy) * ((1 - wx) * x.data b c y0 x0 + wx * x.data b c y0 x1) +
          wy * ((1 - wx) * x.data b c y1 x0 + wx * x.data b c y1 x1)⟩
  else none

/-- F.pad with constant 0 padding, pad list [pl, pr, pt, pb] (last axis first,
as in the source).  Negative amounts crop, as in torch. -/
def pad2d (pl pr pt pb : ℤ) (x : Tensor4) : Tensor4 :=
  ⟨x.d0, x.d1, ((x.d2 : ℤ) + pt + pb).toNat, ((x.d3 : ℤ) + pl + pr).toNat,
    fun b c y xx =>
      if 0 ≤ (y : ℤ) - pt ∧ (y : ℤ) - pt < (x.d2 : ℤ) ∧
          0 ≤ (xx : ℤ) - pl ∧ (xx : ℤ) - pl < (x.d3 : ℤ)
      then x.data b c ((y : ℤ) - pt).toNat ((xx : ℤ) - pl).toNat else 0⟩

/-- torch.cat along dim 1 (channels); all other dims must agree. -/
def cat1 (a b : Tensor4) : Option Tensor4 :=
  if a.d0 = b.d0 ∧ a.d2 = b.d2 ∧ a.d3 = b.d3 then
    some ⟨a.d0, a.d1 + b.d1, a.d2, a.d3,
      fun n c h w =>
        if c < a.d1 then a.data n c h w else b.data n (c - a.d1) h w⟩
  else none

/-- The python slice x[:, 4:7, :, :] (clamping semantics of python slices). -/
def slice_4_7 (x : Tensor4) : Tensor4 :=
  ⟨x.d0, min 7 x.d1 - 4, x.d2, x.d3, fun b c h w => x.data b (c + 4) h w⟩

/-- torch.moveaxis(x, 1, 3): (d0,d1,d2,d3) becomes (d0,d2,d3,d1). -/
def moveaxis13 (x : Tensor4) : Tensor4 :=
  ⟨x.d0, x.d2, x.d3, x.d1, fun b h w c => x.data b c h w⟩

/-- torch.moveaxis(x, 3, 1): (d0,d1,d2,d3) becomes (d0,d3,d1,d2). -/
def moveaxis31 (x : Tensor4) : Tensor4 :=
  ⟨x.d0, x.d3, x.d1, x.d2, fun b c h w => x.data b h w c⟩

/-- Weights of one nn.Linear layer. -/
structure LinWB where
  w : ℕ → ℕ → ℚ
  b : ℕ → ℚ

/-- nn.Linear applied along the last axis of a 4-dimensional tensor. -/
def linearLast (inF outF : ℕ) (wb : LinWB) (x : Tensor4) : Option Tensor4 :=
  if x.d3 = inF then
    some ⟨x.d0, x.d1, x.d2, outF,
      fun b h w k => wb.b k + ∑ j ∈ Finset.range inF, wb.w k j * x.data b h w j⟩
  else none

/-- g[:, i, ...]: the i-th glass slice of a 5-dimensional glass tensor. -/
def Tensor5.slice (g : Tensor5) (i : ℕ) : Tensor4 :=
  ⟨g.d0, g.d2, g.d3, g.d4, fun b c h w => g.data b i c h w⟩

/-- Permutation of the glass axis (axis 1) of a 5-dimensional tensor. -/
def Tensor5.permute (g : Tensor5) (π : Equiv.Perm (Fin g.d1)) : Tensor5 :=
  ⟨g.d0, g.d1, g.d2, g.d3, g.d4,
    fun b i c h w =>
      if hi : i < g.d1 then g.data b (π ⟨i, hi⟩) c h w else g.data b i c h w⟩

/-!
Module parameter structures.  Each structure mirrors the attributes built by
the corresponding python __init__; the primed mk functions mirror the
constructors themselves, wiring the channel configuration exactly as the
source does, with the learned weight values as free inputs.
-/

/-- Learned weights of one nn.Conv2d / nn.ConvTranspose2d layer (with bias). -/
structure ConvWB where
  w : ℕ → ℕ → ℕ → ℕ → ℚ
  b : ℕ → ℚ

/-- Weight values for a DoubleConv (its two convolutions have bias=False). -/
structure DCW where
  w1 : ℕ → ℕ → ℕ → ℕ → ℚ
  w2 : ℕ → ℕ → ℕ → ℕ → ℚ

/-- DoubleConv: (convolution => ReLU) * 2, 3x3 kernels, padding 1, no bias. -/
structure DoubleConv where
  in_channels : ℕ
  out_channels : ℕ
  mid_channels : ℕ
  w1 : ℕ → ℕ → ℕ → ℕ → ℚ
  w2 : ℕ → ℕ → ℕ → ℕ → ℚ

def DoubleConv.mk' (in_channels out_channels : ℕ) (mid_channels : Option ℕ)
    (w : DCW) : DoubleConv :=
  ⟨in_channels, out_channels, mid_channels.getD out_channels, w.w1, w.w2⟩

def noBias : ℕ → ℚ := fun _ => 0

def DoubleConv.forward (m : DoubleConv) (x : Tensor4) : Option Tensor4 :=
  ((conv2d m.in_channels m.mid_channels 3 1 m.w1 noBias x).map relu).bind
    fun x => (conv2d m.mid_channels m.out_channels 3 1 m.w2 noBias x).map relu

/-- Down: maxpool(2) then DoubleConv. -/
structure Down where
  conv : DoubleConv

def Down.mk' (in_channels out_channels : ℕ) (w : DCW) : Down :=
  ⟨DoubleConv.mk' in_channels out_channels none w⟩

def Down.forward (m : Down) (x : Tensor4) : Option Tensor4 :=
  (maxpool2 x).bind m.conv.forward

/-- Weight values for an Up block (the transposed convolution weights are only
used in the non-bilinear mode, where the python module owns them). -/
structure UpW where
  upw : ConvWB
  conv : DCW

/-- Up: upscale (bilinear upsample, or transposed convolution halving the
channel count), pad to the skip tensor's spatial size, concatenate, then
DoubleConv.  In the bilinear mode the DoubleConv gets mid_channels
in_channels / 2, as in the source. -/
structure Up where
  in_channels : ℕ
  out_channels : ℕ
  bilinear : Bool
  upw : ConvWB
  conv : DoubleConv

def Up.mk' (in_channels out_channels : ℕ) (bilinear : Bool) (w : UpW) : Up :=
  ⟨in_channels, out_channels, bilinear, w.upw,
    DoubleConv.mk' in_channels out_channels
      (if bilinear then some (in_channels / 2) else none) w.conv⟩

def Up.upStep (m : Up) (x : Tensor4) : Option Tensor4 :=
  if m.bilinear then upsample2 x
  else convT2 m.in_channels (m.in_channels / 2) m.upw.w m.upw.b x

/-- The pad-to-match step of Up.forward: diffY = x2.size(2) - x1.size(2),
diffX = x2.size(3) - x1.size(3), then
F.pad(x1, [diffX // 2, diffX - diffX // 2, diffY // 2, diffY - diffY // 2])
(python floor division, hence Int.fdiv). -/
def Up.padToMatch (x1 x2 : Tensor4) : Tensor4 :=
  let diffY : ℤ := (x2.d2 : ℤ) - (x1.d2 : ℤ)
  let diffX : ℤ := (x2.d3 : ℤ) - (x1.d3 : ℤ)
  pad2d (diffX.fdiv 2) (diffX - diffX.fdiv 2) (diffY.fdiv 2) (diffY - diffY.fdiv 2) x1

def Up.forward (m : Up) (x1 x2 : Tensor4) : Option Tensor4 :=
  (m.upStep x1).bind fun x1 =>
    (cat1 x2 (Up.padToMatch x1 x2)).bind fun x => m.conv.forward x

/-- OutConv: 1x1 convolution (with bias). -/
structure OutConv where
  in_channels : ℕ
  out_channels : ℕ
  conv : ConvWB

def OutConv.mk' (in_channels out_channels : ℕ) (w : ConvWB) : OutConv :=
  ⟨in_channels, out_channels, w⟩

def OutConv.forward (m : OutConv) (x : Tensor4) : Option Tensor4 :=
  conv2d m.in_channels m.out_channels 1 0 m.conv.w m.conv.b x

/-- Weight values for the shared encoder ladder of UNet / ThreeWayUNet. -/
structure EncW where
  inc : DCW
  down1 : DCW
  down2 : DCW
  down3 : DCW
  down4 : DCW

/-- Weight values for one decoder ladder: four Up blocks and one OutConv. -/
structure GroupW where
  u0 : UpW
  u1 : UpW
  u2 : UpW
  u3 : UpW
  oc : ConvWB

structure UNet where
  n_channels : ℕ
  n_classes : ℕ
  bilinear : Bool
  inc : DoubleConv
  down1 : Down
  down2 : Down
  down3 : Down
  down4 : Down
  up1 : Up
  up2 : Up
  up3 : Up
  up4 : Up
  outc : OutConv

def UNet.mk' (n_channels n_classes : ℕ) (bilinear : Bool) (e : EncW)
    (g : GroupW) : UNet :=
  let factor := if bilinear then 2 else 1
  ⟨n_channels, n_classes, bilinear,
    DoubleConv.mk' n_channels 32 none e.inc,
    Down.mk' 32 64 e.down1, Down.mk' 64 128 e.down2, Down.mk' 128 256 e.down3,
    Down.mk' 256 (512 / factor) e.down4,
    Up.mk' 512 (256 / factor) bilinear g.u0, Up.mk' 256 (128 / factor) bilinear g.u1,
    Up.mk' 128 (64 / factor) bilinear g.u2, Up.mk' 64 32 bilinear g.u3,
    OutConv.mk' 32 n_classes g.oc⟩

def UNet.forward (m : UNet) (x : Tensor4) : Option Tensor4 :=
  (m.inc.forward x).bind fun x1 =>
  (m.down1.forward x1).bind fun x2 =>
  (m.down2.forward x2).bind fun x3 =>
  (m.down3.forward x3).bind fun x4 =>
  (m.down4.forward x4).bind fun x5 =>
  (m.up1.forward x5 x4).bind fun x =>
  (m.up2.forward x x3).bind fun x =>
  (m.up3.forward x x2).bind fun x =>
  (m.up4.forward x x1).bind fun x =>
  m.outc.forward x

structure ThreeWayUNet where
  n_channels : ℕ
  n_classes : ℕ
  bilinear : Bool
  inc : DoubleConv
  down1 : Down
  down2 : Down
  down3 : Down
  down4 : Down
  up_group_1_0 : Up
  up_group_1_1 : Up
  up_group_1_2 : Up
  up_group_1_3 : Up
  up_group_1_4 : OutConv
  up_group_2_0 : Up
  up_group_2_1 : Up
  up_group_2_2 : Up
  up_group_2_3 : Up
  up_group_2_4 : OutConv
  up_group_3_0 : Up
  up_group_3_1 : Up
  up_group_3_2 : Up
  up_group_3_3 : Up
  up_group_3_4 : OutConv

def ThreeWayUNet.mk' (n_channels n_classes : ℕ) (bilinear : Bool) (e : EncW)
    (g1 g2 g3 : GroupW) : ThreeWayUNet :=
  let factor := if bilinear then 2 else 1
  ⟨n_channels, n_classes, bilinear,
    DoubleConv.mk' n_channels 32 none e.inc,
    Down.mk' 32 64 e.down1, Down.mk' 64 128 e.down2, Down.mk' 128 256 e.down3,
    Down.mk' 256 (512 / factor) e.down4,
    Up.mk' 512 (256 / factor) bilinear g1.u0, Up.mk' 256 (128 / factor) bilinear g1.u1,
    Up.mk' 128 (64 / factor) bilinear g1.u2, Up.mk' 64 32 bilinear g1.u3,
    OutConv.mk' 32 3 g1.oc,
    Up.mk' 512 (256 / factor) bilinear g2.u0, Up.mk' 256 (128 / factor) bilinear g2.u1,
    Up.mk' 128 (64 / factor) bilinear g2.u2, Up.mk' 64 32 bilinear g2.u3,
    OutConv.mk' 32 n_classes g2.oc,
    Up.mk' 512 (256 / factor) bilinear g3.u0, Up.mk' 256 (128 / factor) bilinear g3.u1,
    Up.mk' 128 (64 / factor) bilinear g3.u2, Up.mk' 64 32 bilinear g3.u3,
    OutConv.mk' 32 2 g3.oc⟩

/-- ThreeWayUNet.forward: shared encoder, then three decoder ladders; the
returned triple is (normal, oi, uv) = (out1, out2, out3). -/
def ThreeWayUNet.forward (m : ThreeWayUNet) (x : Tensor4) :
    Option (Tensor4 × Tensor4 × Tensor4) :=
  (m.inc.forward x).bind fun x1 =>
  (m.down1.forward x1).bind fun x2 =>
  (m.down2.forward x2).bind fun x3 =>
  (m.down3.forward x3).bind fun x4 =>
  (m.down4.forward x4).bind fun x5 =>
  ((m.up_group_1_0.forward x5 x4).bind fun o =>
   (m.up_group_1_1.forward o x3).bind fun o =>
   (m.up_group_1_2.forward o x2).bind fun o =>
   (m.up_group_1_3.forward o x1).bind fun o =>
   m.up_group_1_4.forward o).bind fun out1 =>
  ((m.up_group_2_0.forward x5 x4).bind fun o =>
   (m.up_group_2_1.forward o x3).bind fun o =>
   (m.up_group_2_2.forward o x2).bind fun o =>
   (m.up_group_2_3.forward o x1).bind fun o =>
   m.up_group_2_4.forward o).bind fun out2 =>
  ((m.up_group_3_0.forward x5 x4).bind fun o =>
   (m.up_group_3_1.forward o x3).bind fun o =>
   (m.up_group_3_2.forward o x2).bind fun o =>
   (m.up_group_3_3.forward o x1).bind fun o =>
   m.up_group_3_4.forward o).map fun out3 =>
  (out1, out2, out3)

/-- Weight values for an RNet (four convolution layers, all with bias). -/
structure RNW where
  layer0 : ConvWB
  layer1 : ConvWB
  layer2 : ConvWB
  layer3 : ConvWB

/-- RNet: conv5x5+LeakyReLU, conv3x3+LeakyReLU, conv3x3+LeakyReLU, conv1x1. -/
structure RNet where
  in_channel : ℕ
  out_channel : ℕ
  layer0 : ConvWB
  layer1 : ConvWB
  layer2 : ConvWB
  layer3 : ConvWB

def RNet.mk' (in_channel out_channel : ℕ) (w : RNW) : RNet :=
  ⟨in_channel, out_channel, w.layer0, w.layer1, w.layer2, w.layer3⟩

def RNet.forward (m : RNet) (x : Tensor4) : Option Tensor4 :=
  ((conv2d m.in_channel 32 5 2 m.layer0.w m.layer0.b x).map leakyRelu).bind fun x =>
  ((conv2d 32 64 3 1 m.layer1.w m.layer1.b x).map leakyRelu).bind fun x =>
  ((conv2d 64 32 3 1 m.layer2.w m.layer2.b x).map leakyRelu).bind fun x =>
  conv2d 32 m.out_channel 1 0 m.layer3.w m.layer3.b x

/-- Weight values for a TNetBackBone (four convolution layers, all with bias). -/
structure TNBW where
  layer1 : ConvWB
  layer2 : ConvWB
  layer3 : ConvWB
  layer4 : ConvWB

/-- TNetBackBone: conv3x3+ReLU (in to 64), conv3x3+ReLU (64 to 128),
conv3x3+ReLU (128 to 64), conv1x1+ReLU (64 to out). -/
structure TNetBackBone where
  in_channel : ℕ
  out_channel : ℕ
  layer1 : ConvWB
  layer2 : ConvWB
  layer3 : ConvWB
  layer4 : ConvWB

def TNetBackBone.mk' (in_channel out_channel : ℕ) (w : TNBW) : TNetBackBone :=
  ⟨in_channel, out_channel, w.layer1, w.layer2, w.layer3, w.layer4⟩

def TNetBackBone.forward (m : TNetBackBone) (x : Tensor4) : Option Tensor4 :=
  ((conv2d m.in_channel 64 3 1 m.layer1.w m.layer1.b x).map relu).bind fun x =>
  ((conv2d 64 128 3 1 m.layer2.w m.layer2.b x).map relu).bind fun x =>
  ((conv2d 128 64 3 1 m.layer3.w m.layer3.b x).map relu).bind fun x =>
  (conv2d 64 m.out_channel 1 0 m.layer4.w m.layer4.b x).map relu

/-- TNet: tnet_f = TNetBackBone(in_channel, hidden),
tnet_b = TNetBackBone(hidden, 16).  The python default hidden is 32. -/
structure TNet where
  tnet_f : TNetBackBone
  tnet_b : TNetBackBone
  hidden : ℕ

def TNet.mk' (in_channel hidden : ℕ) (fw bw : TNBW) : TNet :=
  ⟨TNetBackBone.mk' in_channel hidden fw, TNetBackBone.mk' hidden 16 bw, hidden⟩

/-- TNet.forward: a zero accumulator of shape (g.shape[0], hidden,
g.shape[-2], g.shape[-1]); for each glass index i, add
tnet_f(cat([rx, g[:,i,...]], 1)); finally apply tnet_b. -/
def TNet.forward (m : TNet) (g : Tensor5) (rx : Tensor4) : Option Tensor4 :=
  let num_of_glass := g.d1
  let init := Tensor4.zeros g.d0 m.hidden g.d3 g.d4
  ((List.range num_of_glass).foldlM
      (fun result i =>
        (cat1 rx (g.slice i)).bind fun y =>
          (m.tnet_f.forward y).map fun z => result.add z)
      init).bind fun result => m.tnet_b.forward result

/-- The fc_layer helper: Sequential(Linear(in, out), LeakyReLU). -/
def fc_layer (in_features out_features : ℕ) (wb : LinWB) (x : Tensor4) :
    Option Tensor4 :=
  (linearLast in_features out_features wb x).map leakyRelu

/-- All weight values of a CNet. -/
structure CNetW where
  pos : LinWB
  unet_e : EncW
  unet_g : GroupW
  tnet_f : TNBW
  tnet_b : TNBW
  r_e : EncW
  r_g1 : GroupW
  r_g2 : GroupW
  r_g3 : GroupW
  ruv : RNW
  rnormal : RNW

structure CNet where
  inner_pos : LinWB
  unet : UNet
  tnet : TNet
  r_unet : ThreeWayUNet
  rnet_uv : RNet
  rnet_normal : RNet

def CNet.mk' (n_oi : ℕ) (w : CNetW) : CNet :=
  ⟨w.pos,
    UNet.mk' 37 8 true w.unet_e w.unet_g,
    TNet.mk' (8 + 17) 32 w.tnet_f w.tnet_b,
    ThreeWayUNet.mk' 24 n_oi true w.r_e w.r_g1 w.r_g2 w.r_g3,
    RNet.mk' 2 2 w.ruv,
    RNet.mk' 3 3 w.rnormal⟩

def CNet.forward (m : CNet) (x : Tensor4) (g : Tensor5) :
    Option (Tensor4 × Tensor4 × Tensor4) :=
  let position := moveaxis13 (slice_4_7 x)
  (fc_layer 3 16 m.inner_pos position).bind fun pe =>
  (cat1 x (moveaxis31 pe)).bind fun x =>
  (m.unet.forward x).bind fun rx =>
  (m.tnet.forward g rx).bind fun tx =>
  (cat1 rx tx).bind fun rtx =>
  (m.r_unet.forward rtx).bind fun out =>
  match out with
  | (normal, oi, uv) =>
    (m.rnet_uv.forward uv).bind fun uv =>
    (m.rnet_normal.forward normal).map fun normal =>
    (normal, oi, uv)

structure CrystalNet where
  cnet : CNet

def CrystalNet.mk' (n_oi : ℕ) (w : CNetW) : CrystalNet := ⟨CNet.mk' n_oi w⟩

def CrystalNet.forward (m : CrystalNet) (x : Tensor4) (g : Tensor5) :
    Option (Tensor4 × Tensor4 × Tensor4) :=
  (m.cnet.forward x g).map fun nod =>
    match nod with
    | (n, o, d) => (n, o, d)

/-!
Shape semantics: for every operation a pure function on shapes that mirrors
its success condition and output shape.  The commuting lemmas below prove
that mapping Tensor4.sh over a forward pass equals the shape function on the
input shapes; success of a forward pass therefore depends only on shapes and
channel configuration, never on weight values.
-/

def convSh (inC outC k p : ℕ) (s : Sh) : Option Sh :=
  if s.c = inC ∧ k ≤ s.h + 2 * p ∧ k ≤ s.w + 2 * p then
    some ⟨s.n, outC, s.h + 2 * p + 1 - k, s.w + 2 * p + 1 - k⟩
  else none

def convTSh (inC outC : ℕ) (s : Sh) : Option Sh :=
  if s.c = inC ∧ 1 ≤ s.h ∧ 1 ≤ s.w then some ⟨s.n, outC, 2 * s.h, 2 * s.w⟩
  else none

def maxpoolSh (s : Sh) : Option Sh :=
  if 2 ≤ s.h ∧ 2 ≤ s.w then some ⟨s.n, s.c, s.h / 2, s.w / 2⟩ else none

def upsampleSh (s : Sh) : Option Sh :=
  if 1 ≤ s.h ∧ 1 ≤ s.w then some ⟨s.n, s.c, 2 * s.h, 2 * s.w⟩ else none

def catSh (a b : Sh) : Option Sh :=
  if a.n = b.n ∧ a.h = b.h ∧ a.w = b.w then some ⟨a.n, a.c + b.c, a.h, a.w⟩
  else none

def linearSh (inF outF : ℕ) (s : Sh) : Option Sh :=
  if s.w = inF then some ⟨s.n, s.c, s.h, outF⟩ else none

def mv13Sh (s : Sh) : Sh := ⟨s.n, s.h, s.w, s.c⟩

def mv31Sh (s : Sh) : Sh := ⟨s.n, s.w, s.c, s.h⟩

def sliceSh (s : Sh) : Sh := ⟨s.n, min 7 s.c - 4, s.h, s.w⟩

/-- Shape of the pad-to-match step: the spatial size always becomes the skip
tensor's (padding when smaller, cropping when larger). -/
def padMatchSh (s1 s2 : Sh) : Sh := ⟨s1.n, s1.c, s2.h, s2.w⟩

def DoubleConv.shf (m : DoubleConv) (s : Sh) : Option Sh :=
  (convSh m.in_channels m.mid_channels 3 1 s).bind
    (convSh m.mid_channels m.out_channels 3 1)

def Down.shf (m : Down) (s : Sh) : Option Sh := (maxpoolSh s).bind m.conv.shf

def upStepSh (inC : ℕ) (bilinear : Bool) (s : Sh) : Option Sh :=
  if bilinear then upsampleSh s else convTSh inC (inC / 2) s

def Up.shf (m : Up) (s1 s2 : Sh) : Option Sh :=
  (upStepSh m.in_channels m.bilinear s1).bind fun s1 =>
    (catSh s2 (padMatchSh s1 s2)).bind m.conv.shf

def OutConv.shf (m : OutConv) (s : Sh) : Option Sh :=
  convSh m.in_channels m.out_channels 1 0 s

def RNet.shf (m : RNet) (s : Sh) : Option Sh :=
  (convSh m.in_channel 32 5 2 s).bind fun s =>
  (convSh 32 64 3 1 s).bind fun s =>
  (convSh 64 32 3 1 s).bind fun s =>
  convSh 32 m.out_channel 1 0 s

def TNetBackBone.shf (m : TNetBackBone) (s : Sh) : Option Sh :=
  (convSh m.in_channel 64 3 1 s).bind fun s =>
  (convSh 64 128 3 1 s).bind fun s =>
  (convSh 128 64 3 1 s).bind fun s =>
  convSh 64 m.out_channel 1 0 s

def UNet.shf (m : UNet) (s : Sh) : Option Sh :=
  (m.inc.shf s).bind fun s1 =>
  (m.down1.shf s1).bind fun s2 =>
  (m.down2.shf s2).bind fun s3 =>
  (m.down3.shf s3).bind fun s4 =>
  (m.down4.shf s4).bind fun s5 =>
  (m.up1.shf s5 s4).bind fun s =>
  (m.up2.shf s s3).bind fun s =>
  (m.up3.shf s s2).bind fun s =>
  (m.up4.shf s s1).bind fun s =>
  m.outc.shf s

def ThreeWayUNet.shf (m : ThreeWayUNet) (s : Sh) : Option (Sh × Sh × Sh) :=
  (m.inc.shf s).bind fun s1 =>
  (m.down1.shf s1).bind fun s2 =>
  (m.down2.shf s2).bind fun s3 =>
  (m.down3.shf s3).bind fun s4 =>
  (m.down4.shf s4).bind fun s5 =>
  ((m.up_group_1_0.shf s5 s4).bind fun o =>
   (m.up_group_1_1.shf o s3).bind fun o =>
   (m.up_group_1_2.shf o s2).bind fun o =>
   (m.up_group_1_3.shf o s1).bind fun o =>
   m.up_group_1_4.shf o).bind fun o1 =>
  ((m.up_group_2_0.shf s5 s4).bind fun o =>
   (m.up_group_2_1.shf o s3).bind fun o =>
   (m.up_group_2_2.shf o s2).bind fun o =>
   (m.up_group_2_3.shf o s1).bind fun o =>
   m.up_group_2_4.shf o).bind fun o2 =>
  ((m.up_group_3_0.shf s5 s4).bind fun o =>
   (m.up_group_3_1.shf o s3).bind fun o =>
   (m.up_group_3_2.shf o s2).bind fun o =>
   (m.up_group_3_3.shf o s1).bind fun o =>
   m.up_group_3_4.shf o).map fun o3 =>
  (o1, o2, o3)

/-- Shape semantics of the TNet loop: the accumulator keeps its shape, so the
loop yields the accumulator shape when the glass axis is empty or when one
(equivalently every) per-index step succeeds, and fails otherwise. -/
def TNet.shf (m : TNet) (g : Tensor5) (srx : Sh) : Option Sh :=
  let init : Sh := ⟨g.d0, m.hidden, g.d3, g.d4⟩
  let step : Option Sh := (catSh srx ⟨g.d0, g.d2, g.d3, g.d4⟩).bind m.tnet_f.shf
  if g.d1 = 0 ∨ step.isSome then m.tnet_b.shf init else none

def sh3 (t : Tensor4 × Tensor4 × Tensor4) : Sh × Sh × Sh :=
  (t.1.sh, t.2.1.sh, t.2.2.sh)

def CNet.shf (m : CNet) (sx : Sh) (g : Tensor5) : Option (Sh × Sh × Sh) :=
  let spos := mv13Sh (sliceSh sx)
  (linearSh 3 16 spos).bind fun spe =>
  (catSh sx (mv31Sh spe)).bind fun sx =>
  (m.unet.shf sx).bind fun srx =>
  (m.tnet.shf g srx).bind fun stx =>
  (catSh srx stx).bind fun srtx =>
  (m.r_unet.shf srtx).bind fun o =>
  (m.rnet_uv.shf o.2.2).bind fun suv =>
  (m.rnet_normal.shf o.1).map fun snormal =>
  (snormal, o.2.1, suv)

/-!
Commutation lemmas: mapping Tensor4.sh over each operation equals the
corresponding shape function.
-/

theorem sh_relu (x : Tensor4) : (relu x).sh = x.sh := rfl

theorem sh_leakyRelu (x : Tensor4) : (leakyRelu x).sh = x.sh := rfl

theorem sh_add (a b : Tensor4) : (a.add b).sh = a.sh := rfl

theorem map_relu_sh (o : Option Tensor4) :
    (o.map relu).map Tensor4.sh = o.map Tensor4.sh := by cases o <;> rfl

theorem map_leakyRelu_sh (o : Option Tensor4) :
    (o.map leakyRelu).map Tensor4.sh = o.map Tensor4.sh := by cases o <;> rfl

theorem map_proj_bind {α β γ δ : Type} (x : Option α) (f : α → Option β)
    (p : α → γ) (q : β → δ) (F : γ → Option δ)
    (h : ∀ t, (f t).map q = F (p t)) :
    (x.bind f).map q = (x.map p).bind F := by
  cases x <;> simp [h]

theorem map_proj_map {α β γ δ : Type} (x : Option α) (f : α → β)
    (p : α → γ) (q : β → δ) (F : γ → δ)
    (h : ∀ t, q (f t) = F (p t)) :
    (x.map f).map q = (x.map p).map F := by
  cases x <;> simp [h]

theorem conv2d_sh (inC outC k p : ℕ) (w : ℕ → ℕ → ℕ → ℕ → ℚ) (bias : ℕ → ℚ)
    (x : Tensor4) :
    (conv2d inC outC k p w bias x).map Tensor4.sh = convSh inC outC k p x.sh := by
  unfold conv2d convSh Tensor4.sh
  split <;> rfl

theorem convT2_sh (inC outC : ℕ) (w : ℕ → ℕ → ℕ → ℕ → ℚ) (bias : ℕ → ℚ)
    (x : Tensor4) :
    (convT2 inC outC w bias x).map Tensor4.sh = convTSh inC outC x.sh := by
  unfold convT2 convTSh Tensor4.sh
  split <;> rfl

theorem maxpool2_sh (x : Tensor4) :
    (maxpool2 x).map Tensor4.sh = maxpoolSh x.sh := by
  unfold maxpool2 maxpoolSh Tensor4.sh
  split <;> rfl

theorem upsample2_sh (x : Tensor4) :
    (upsample2 x).map Tensor4.sh = upsampleSh x.sh := by
  unfold upsample2 upsampleSh Tensor4.sh
  split <;> rfl

theorem cat1_sh (a b : Tensor4) :
    (cat1 a b).map Tensor4.sh = catSh a.sh b.sh := by
  unfold cat1 catSh Tensor4.sh
  split <;> rfl

theorem linearLast_sh (inF outF : ℕ) (wb : LinWB) (x : Tensor4) :
    (linearLast inF outF wb x).map Tensor4.sh = linearSh inF outF x.sh := by
  unfold linearLast linearSh Tensor4.sh
  split <;> rfl

theorem sh_moveaxis13 (x : Tensor4) : (moveaxis13 x).sh = mv13Sh x.sh := rfl

theorem sh_moveaxis31 (x : Tensor4) : (moveaxis31 x).sh = mv31Sh x.sh := rfl

theorem sh_slice_4_7 (x : Tensor4) : (slice_4_7 x).sh = sliceSh x.sh := rfl

theorem sh_padToMatch (x1 x2 : Tensor4) :
    (Up.padToMatch x1 x2).sh = padMatchSh x1.sh x2.sh := by
  unfold Up.padToMatch pad2d padMatchSh Tensor4.sh
  have h2 : ((x1.d2 : ℤ) + ((x2.d2 : ℤ) - (x1.d2 : ℤ)).fdiv 2 +
      (((x2.d2 : ℤ) - (x1.d2 : ℤ)) - ((x2.d2 : ℤ) - (x1.d2 : ℤ)).fdiv 2)).toNat
      = x2.d2 := by
    generalize ((x2.d2 : ℤ) - (x1.d2 : ℤ)).fdiv 2 = q
    omega
  have h3 : ((x1.d3 : ℤ) + ((x2.d3 : ℤ) - (x1.d3 : ℤ)).fdiv 2 +
      (((x2.d3 : ℤ) - (x1.d3 : ℤ)) - ((x2.d3 : ℤ) - (x1.d3 : ℤ)).fdiv 2)).toNat
      = x2.d3 := by
    generalize ((x2.d3 : ℤ) - (x1.d3 : ℤ)).fdiv 2 = q
    omega
  simp only [Sh.mk.injEq]
  exact ⟨trivial, trivial, h2, h3⟩

theorem map_step_bind {α β γ δ : Type} (o : Option α) (k : α → Option β)
    (p : α → γ) (q : β → δ) (so : Option γ) (K : γ → Option δ)
    (ho : o.map p = so) (hk : ∀ t, (k t).map q = K (p t)) :
    (o.bind k).map q = so.bind K := by
  cases o with
  | none => rw [← ho]; rfl
  | some t => rw [← ho]; simpa using hk t

theorem map_step_map {α β γ δ : Type} (o : Option α) (k : α → β)
    (p : α → γ) (q : β → δ) (so : Option γ) (K : γ → δ)
    (ho : o.map p = so) (hk : ∀ t, q (k t) = K (p t)) :
    (o.map k).map q = so.map K := by
  cases o with
  | none => rw [← ho]; rfl
  | some t => rw [← ho]; simpa using hk t

theorem doubleConv_forward_sh (m : DoubleConv) (x : Tensor4) :
    (m.forward x).map Tensor4.sh = m.shf x.sh := by
  unfold DoubleConv.forward DoubleConv.shf
  refine map_step_bind _ _ Tensor4.sh Tensor4.sh _ _ ?_ fun t => ?_
  · rw [map_relu_sh, conv2d_sh]
  · rw [map_relu_sh, conv2d_sh]

theorem down_forward_sh (m : Down) (x : Tensor4) :
    (m.forward x).map Tensor4.sh = m.shf x.sh := by
  unfold Down.forward Down.shf
  exact map_step_bind _ _ Tensor4.sh Tensor4.sh _ _ (maxpool2_sh x)
    fun t => doubleConv_forward_sh m.conv t

theorem up_upStep_sh (m : Up) (x : Tensor4) :
    (m.upStep x).map Tensor4.sh = upStepSh m.in_channels m.bilinear x.sh := by
  unfold Up.upStep upStepSh
  cases hb : m.bilinear <;> simp [upsample2_sh, convT2_sh]

theorem up_forward_sh (m : Up) (x1 x2 : Tensor4) :
    (m.forward x1 x2).map Tensor4.sh = m.shf x1.sh x2.sh := by
  unfold Up.forward Up.shf
  refine map_step_bind _ _ Tensor4.sh Tensor4.sh _ _ (up_upStep_sh m x1) fun t => ?_
  refine map_step_bind _ _ Tensor4.sh Tensor4.sh _ _ ?_ fun u => doubleConv_forward_sh m.conv u
  rw [cat1_sh, sh_padToMatch]

theorem outConv_forward_sh (m : OutConv) (x : Tensor4) :
    (m.forward x).map Tensor4.sh = m.shf x.sh := by
  unfold OutConv.forward OutConv.shf
  exact conv2d_sh _ _ _ _ _ _ _

theorem rnet_forward_sh (m : RNet) (x : Tensor4) :
    (m.forward x).map Tensor4.sh = m.shf x.sh := by
  unfold RNet.forward RNet.shf
  refine map_step_bind _ _ Tensor4.sh Tensor4.sh _ _ ?_ fun t1 => ?_
  · rw [map_leakyRelu_sh, conv2d_sh]
  refine map_step_bind _ _ Tensor4.sh Tensor4.sh _ _ ?_ fun t2 => ?_
  · rw [map_leakyRelu_sh, conv2d_sh]
  refine map_step_bind _ _ Tensor4.sh Tensor4.sh _ _ ?_ fun t3 => ?_
  · rw [map_leakyRelu_sh, conv2d_sh]
  exact conv2d_sh _ _ _ _ _ _ _

theorem tnetBackBone_forward_sh (m : TNetBackBone) (x : Tensor4) :
    (m.forward x).map Tensor4.sh = m.shf x.sh := by
  unfold TNetBackBone.forward TNetBackBone.shf
  refine map_step_bind _ _ Tensor4.sh Tensor4.sh _ _ ?_ fun t1 => ?_
  · rw [map_relu_sh, conv2d_sh]
  refine map_step_bind _ _ Tensor4.sh Tensor4.sh _ _ ?_ fun t2 => ?_
  · rw [map_relu_sh, conv2d_sh]
  refine map_step_bind _ _ Tensor4.sh Tensor4.sh _ _ ?_ fun t3 => ?_
  · rw [map_relu_sh, conv2d_sh]
  rw [map_relu_sh, conv2d_sh]

theorem unet_forward_sh (m : UNet) (x : Tensor4) :
    (m.forward x).map Tensor4.sh = m.shf x.sh := by
  unfold UNet.forward UNet.shf
  refine map_step_bind _ _ Tensor4.sh Tensor4.sh _ _ (doubleConv_forward_sh m.inc x) fun x1 => ?_
  refine map_step_bind _ _ Tensor4.sh Tensor4.sh _ _ (down_forward_sh m.down1 x1) fun x2 => ?_
  refine map_step_bind _ _ Tensor4.sh Tensor4.sh _ _ (down_forward_sh m.down2 x2) fun x3 => ?_
  refine map_step_bind _ _ Tensor4.sh Tensor4.sh _ _ (down_forward_sh m.down3 x3) fun x4 => ?_
  refine map_step_bind _ _ Tensor4.sh Tensor4.sh _ _ (down_forward_sh m.down4 x4) fun x5 => ?_
  refine map_step_bind _ _ Tensor4.sh Tensor4.sh _ _ (up_forward_sh m.up1 x5 x4) fun u1 => ?_
  refine map_step_bind _ _ Tensor4.sh Tensor4.sh _ _ (up_forward_sh m.up2 u1 x3) fun u2 => ?_
  refine map_step_bind _ _ Tensor4.sh Tensor4.sh _ _ (up_forward_sh m.up3 u2 x2) fun u3 => ?_
  refine map_step_bind _ _ Tensor4.sh Tensor4.sh _ _ (up_forward_sh m.up4 u3 x1) fun u4 => ?_
  exact outConv_forward_sh m.outc u4

theorem threeWayUNet_forward_sh (m : ThreeWayUNet) (x : Tensor4) :
    (m.forward x).map sh3 = m.shf x.sh := by
  unfold ThreeWayUNet.forward ThreeWayUNet.shf
  refine map_step_bind _ _ Tensor4.sh sh3 _ _ (doubleConv_forward_sh m.inc x) fun x1 => ?_
  refine map_step_bind _ _ Tensor4.sh sh3 _ _ (down_forward_sh m.down1 x1) fun x2 => ?_
  refine map_step_bind _ _ Tensor4.sh sh3 _ _ (down_forward_sh m.down2 x2) fun x3 => ?_
  refine map_step_bind _ _ Tensor4.sh sh3 _ _ (down_forward_sh m.down3 x3) fun x4 => ?_
  refine map_step_bind _ _ Tensor4.sh sh3 _ _ (down_forward_sh m.down4 x4) fun x5 => ?_
  refine map_step_bind _ _ Tensor4.sh sh3 _ _ ?_ fun out1 => ?_
  · refine map_step_bind _ _ Tensor4.sh Tensor4.sh _ _ (up_forward_sh m.up_group_1_0 x5 x4) fun o => ?_
    refine map_step_bind _ _ Tensor4.sh Tensor4.sh _ _ (up_forward_sh m.up_group_1_1 o x3) fun o => ?_
    refine map_step_bind _ _ Tensor4.sh Tensor4.sh _ _ (up_forward_sh m.up_group_1_2 o x2) fun o => ?_
    refine map_step_bind _ _ Tensor4.sh Tensor4.sh _ _ (up_forward_sh m.up_group_1_3 o x1) fun o => ?_
    exact outConv_forward_sh m.up_group_1_4 o
  refine map_step_bind _ _ Tensor4.sh sh3 _ _ ?_ fun out2 => ?_
  · refine map_step_bind _ _ Tensor4.sh Tensor4.sh _ _ (up_forward_sh m.up_group_2_0 x5 x4) fun o => ?_
    refine map_step_bind _ _ Tensor4.sh Tensor4.sh _ _ (up_forward_sh m.up_group_2_1 o x3) fun o => ?_
    refine map_step_bind _ _ Tensor4.sh Tensor4.sh _ _ (up_forward_sh m.up_group_2_2 o x2) fun o => ?_
    refine map_step_bind _ _ Tensor4.sh Tensor4.sh _ _ (up_forward_sh m.up_group_2_3 o x1) fun o => ?_
    exact outConv_forward_sh m.up_group_2_4 o
  refine map_step_map _ _ Tensor4.sh sh3 _ _ ?_ fun out3 => rfl
  refine map_step_bind _ _ Tensor4.sh Tensor4.sh _ _ (up_forward_sh m.up_group_3_0 x5 x4) fun o => ?_
  refine map_step_bind _ _ Tensor4.sh Tensor4.sh _ _ (up_forward_sh m.up_group_3_1 o x3) fun o => ?_
  refine map_step_bind _ _ Tensor4.sh Tensor4.sh _ _ (up_forward_sh m.up_group_3_2 o x2) fun o => ?_
  refine map_step_bind _ _ Tensor4.sh Tensor4.sh _ _ (up_forward_sh m.up_group_3_3 o x1) fun o => ?_
  exact outConv_forward_sh m.up_group_3_4 o

theorem bind_map_const {γ : Type} (A : Option Sh) (B : Sh → Option Sh) (c : γ) :
    (A.bind fun s => (B s).map fun _ => c) =
      if (A.bind B).isSome then some c else none := by
  cases A with
  | none => simp
  | some a => cases hb : B a <;> simp [hb]

theorem foldl_sh_loop (step : Tensor4 → ℕ → Option Tensor4) (Q : Prop)
    [Decidable Q]
    (hstep : ∀ acc i, (step acc i).map Tensor4.sh = if Q then some acc.sh else none) :
    ∀ (l : List ℕ) (acc : Tensor4),
      (List.foldlM step acc l).map Tensor4.sh =
        if l = [] ∨ Q then some acc.sh else none := by
  intro l
  induction l with
  | nil => intro acc; simp
  | cons a t ih =>
    intro acc
    rw [List.foldlM_cons]
    by_cases hQ : Q
    · have h := hstep acc a
      rw [if_pos hQ] at h
      obtain ⟨t', ht', hsh⟩ := Option.map_eq_some'.mp h
      rw [ht']
      show ((List.foldlM step t' t).map Tensor4.sh) = _
      rw [ih t']
      simp [hQ, hsh]
    · have h := hstep acc a
      rw [if_neg hQ] at h
      rw [Option.map_eq_none'.mp h]
      simp [hQ]

theorem tnet_forward_sh (m : TNet) (g : Tensor5) (rx : Tensor4) :
    (TNet.forward m g rx).map Tensor4.sh = TNet.shf m g rx.sh := by
  unfold TNet.forward TNet.shf
  have hstep : ∀ (acc : Tensor4) (i : ℕ),
      ((cat1 rx (g.slice i)).bind fun y =>
        (m.tnet_f.forward y).map fun z => acc.add z).map Tensor4.sh
      = if ((catSh rx.sh ⟨g.d0, g.d2, g.d3, g.d4⟩).bind m.tnet_f.shf).isSome
        then some acc.sh else none := by
    intro acc i
    have h1 : ((cat1 rx (g.slice i)).bind fun y =>
        (m.tnet_f.forward y).map fun z => acc.add z).map Tensor4.sh
        = (catSh rx.sh ⟨g.d0, g.d2, g.d3, g.d4⟩).bind fun s =>
            (m.tnet_f.shf s).map fun _ => acc.sh := by
      refine map_step_bind _ _ Tensor4.sh Tensor4.sh _ _ ?_ fun y => ?_
      · rw [cat1_sh]; rfl
      · exact map_step_map _ _ Tensor4.sh Tensor4.sh _ _
          (tnetBackBone_forward_sh m.tnet_f y) fun z => rfl
    rw [h1, bind_map_const]
  rw [map_step_bind _ _ Tensor4.sh Tensor4.sh _ m.tnet_b.shf
    (foldl_sh_loop _ _ hstep (List.range g.d1) (Tensor4.zeros g.d0 m.hidden g.d3 g.d4))
    (fun t => tnetBackBone_forward_sh m.tnet_b t)]
  by_cases h : g.d1 = 0 ∨
      ((catSh rx.sh ⟨g.d0, g.d2, g.d3, g.d4⟩).bind m.tnet_f.shf).isSome
  · rw [if_pos h, if_pos]
    · rfl
    · simpa [List.range_eq_nil] using h
  · rw [if_neg h, if_neg]
    · rfl
    · simpa [List.range_eq_nil] using h

theorem fc_layer_sh (inF outF : ℕ) (wb : LinWB) (x : Tensor4) :
    (fc_layer inF outF wb x).map Tensor4.sh = linearSh inF outF x.sh := by
  unfold fc_layer
  rw [map_leakyRelu_sh, linearLast_sh]

theorem cnet_forward_sh (m : CNet) (x : Tensor4) (g : Tensor5) :
    (m.forward x g).map sh3 = m.shf x.sh g := by
  unfold CNet.forward CNet.shf
  refine map_step_bind _ _ Tensor4.sh sh3 _ _ ?_ fun pe => ?_
  · rw [fc_layer_sh]; rfl
  refine map_step_bind _ _ Tensor4.sh sh3 _ _ ?_ fun xc => ?_
  · rw [cat1_sh]; rfl
  refine map_step_bind _ _ Tensor4.sh sh3 _ _ (unet_forward_sh m.unet xc) fun rx => ?_
  refine map_step_bind _ _ Tensor4.sh sh3 _ _ (tnet_forward_sh m.tnet g rx) fun tx => ?_
  refine map_step_bind _ _ Tensor4.sh sh3 _ _ (cat1_sh rx tx) fun rtx => ?_
  refine map_step_bind _ _ sh3 sh3 _ _ (threeWayUNet_forward_sh m.r_unet rtx) fun out => ?_
  obtain ⟨n1, o1, u1⟩ := out
  refine map_step_bind _ _ Tensor4.sh sh3 _ _ (rnet_forward_sh m.rnet_uv u1) fun uv => ?_
  exact map_step_map _ _ Tensor4.sh sh3 _ _ (rnet_forward_sh m.rnet_normal n1) fun nr => rfl

theorem crystalNet_forward_eq (m : CrystalNet) (x : Tensor4) (g : Tensor5) :
    CrystalNet.forward m x g = m.cnet.forward x g := by
  unfold CrystalNet.forward
  cases h : m.cnet.forward x g with
  | none => rfl
  | some t => obtain ⟨a, b, c⟩ := t; rfl

/-!
Evaluation of the shape functions at the concrete layer configurations.
-/

theorem convSh_eval31 (inC outC n c h w : ℕ) (hc : c = inC) (hh : 1 ≤ h)
    (hw : 1 ≤ w) : convSh inC outC 3 1 ⟨n, c, h, w⟩ = some ⟨n, outC, h, w⟩ := by
  unfold convSh
  rw [if_pos ⟨hc, show 3 ≤ h + 2 * 1 by omega, show 3 ≤ w + 2 * 1 by omega⟩]
  simp only [Option.some.injEq, Sh.mk.injEq]
  exact ⟨trivial, trivial, by omega, by omega⟩

theorem convSh_eval52 (inC outC n c h w : ℕ) (hc : c = inC) (hh : 1 ≤ h)
    (hw : 1 ≤ w) : convSh inC outC 5 2 ⟨n, c, h, w⟩ = some ⟨n, outC, h, w⟩ := by
  unfold convSh
  rw [if_pos ⟨hc, show 5 ≤ h + 2 * 2 by omega, show 5 ≤ w + 2 * 2 by omega⟩]
  simp only [Option.some.injEq, Sh.mk.injEq]
  exact ⟨trivial, trivial, by omega, by omega⟩

theorem convSh_eval10 (inC outC n c h w : ℕ) (hc : c = inC) (hh : 1 ≤ h)
    (hw : 1 ≤ w) : convSh inC outC 1 0 ⟨n, c, h, w⟩ = some ⟨n, outC, h, w⟩ := by
  unfold convSh
  rw [if_pos ⟨hc, show 1 ≤ h + 2 * 0 by omega, show 1 ≤ w + 2 * 0 by omega⟩]
  simp only [Option.some.injEq, Sh.mk.injEq]
  exact ⟨trivial, trivial, by omega, by omega⟩

theorem maxpoolSh_eval (n c h w : ℕ) (hh : 2 ≤ h) (hw : 2 ≤ w) :
    maxpoolSh ⟨n, c, h, w⟩ = some ⟨n, c, h / 2, w / 2⟩ := by
  unfold maxpoolSh
  rw [if_pos ⟨hh, hw⟩]

theorem upsampleSh_eval (n c h w : ℕ) (hh : 1 ≤ h) (hw : 1 ≤ w) :
    upsampleSh ⟨n, c, h, w⟩ = some ⟨n, c, 2 * h, 2 * w⟩ := by
  unfold upsampleSh
  rw [if_pos ⟨hh, hw⟩]

theorem catSh_eval (n c1 c2 h w : ℕ) :
    catSh ⟨n, c1, h, w⟩ ⟨n, c2, h, w⟩ = some ⟨n, c1 + c2, h, w⟩ := by
  unfold catSh
  rw [if_pos ⟨rfl, rfl, rfl⟩]

theorem linearSh_eval (inF outF n c h w : ℕ) (hw : w = inF) :
    linearSh inF outF ⟨n, c, h, w⟩ = some ⟨n, c, h, outF⟩ := by
  unfold linearSh
  rw [if_pos hw]

theorem dcShf_eval (inC outC : ℕ) (mid : Option ℕ) (dw : DCW) (n c h w : ℕ)
    (hc : c = inC) (hh : 1 ≤ h) (hw : 1 ≤ w) :
    (DoubleConv.mk' inC outC mid dw).shf ⟨n, c, h, w⟩ = some ⟨n, outC, h, w⟩ := by
  unfold DoubleConv.shf DoubleConv.mk'
  rw [convSh_eval31 _ _ _ _ _ _ hc hh hw]
  simp only [Option.some_bind]
  exact convSh_eval31 _ _ _ _ _ _ rfl hh hw

theorem downShf_eval (inC outC : ℕ) (dw : DCW) (n c h w : ℕ)
    (hc : c = inC) (hh : 2 ≤ h) (hw : 2 ≤ w) :
    (Down.mk' inC outC dw).shf ⟨n, c, h, w⟩ = some ⟨n, outC, h / 2, w / 2⟩ := by
  unfold Down.shf Down.mk'
  rw [maxpoolSh_eval _ _ _ _ hh hw]
  simp only [Option.some_bind]
  exact dcShf_eval _ _ _ _ _ _ _ _ hc (by omega) (by omega)

theorem upShf_true_eval (inC outC : ℕ) (uw : UpW) (n c1 h1 w1 c2 h2 w2 : ℕ)
    (hc : c2 + c1 = inC) (hh1 : 1 ≤ h1) (hw1 : 1 ≤ w1) (hh2 : 1 ≤ h2)
    (hw2 : 1 ≤ w2) :
    (Up.mk' inC outC true uw).shf ⟨n, c1, h1, w1⟩ ⟨n, c2, h2, w2⟩ =
      some ⟨n, outC, h2, w2⟩ := by
  have hmk : Up.mk' inC outC true uw =
      ⟨inC, outC, true, uw.upw, DoubleConv.mk' inC outC (some (inC / 2)) uw.conv⟩ := rfl
  have hstep : ∀ s : Sh, upStepSh inC true s = upsampleSh s := fun s => rfl
  rw [hmk]
  unfold Up.shf
  dsimp only
  rw [hstep, upsampleSh_eval _ _ _ _ hh1 hw1]
  simp only [Option.some_bind]
  show (catSh ⟨n, c2, h2, w2⟩ ⟨n, c1, h2, w2⟩).bind _ = _
  rw [catSh_eval]
  simp only [Option.some_bind]
  exact dcShf_eval _ _ _ _ _ _ _ _ hc hh2 hw2

theorem ocShf_eval (inC outC : ℕ) (cw : ConvWB) (n c h w : ℕ)
    (hc : c = inC) (hh : 1 ≤ h) (hw : 1 ≤ w) :
    (OutConv.mk' inC outC cw).shf ⟨n, c, h, w⟩ = some ⟨n, outC, h, w⟩ := by
  unfold OutConv.shf OutConv.mk'
  exact convSh_eval10 _ _ _ _ _ _ hc hh hw

theorem bbShf_eval (inC outC : ℕ) (bw : TNBW) (n c h w : ℕ)
    (hc : c = inC) (hh : 1 ≤ h) (hw : 1 ≤ w) :
    (TNetBackBone.mk' inC outC bw).shf ⟨n, c, h, w⟩ = some ⟨n, outC, h, w⟩ := by
  unfold TNetBackBone.shf TNetBackBone.mk'
  rw [convSh_eval31 _ _ _ _ _ _ hc hh hw]
  simp only [Option.some_bind]
  rw [convSh_eval31 _ _ _ _ _ _ rfl hh hw]
  simp only [Option.some_bind]
  rw [convSh_eval31 _ _ _ _ _ _ rfl hh hw]
  simp only [Option.some_bind]
  exact convSh_eval10 _ _ _ _ _ _ rfl hh hw

theorem rnetShf_eval (inC outC : ℕ) (rw : RNW) (n c h w : ℕ)
    (hc : c = inC) (hh : 1 ≤ h) (hw : 1 ≤ w) :
    (RNet.mk' inC outC rw).shf ⟨n, c, h, w⟩ = some ⟨n, outC, h, w⟩ := by
  unfold RNet.shf RNet.mk'
  rw [convSh_eval52 _ _ _ _ _ _ hc hh hw]
  simp only [Option.some_bind]
  rw [convSh_eval31 _ _ _ _ _ _ rfl hh hw]
  simp only [Option.some_bind]
  rw [convSh_eval31 _ _ _ _ _ _ rfl hh hw]
  simp only [Option.some_bind]
  exact convSh_eval10 _ _ _ _ _ _ rfl hh hw

theorem unet_mk_eq_true (nch ncl : ℕ) (e : EncW) (g : GroupW) :
    UNet.mk' nch ncl true e g =
      ⟨nch, ncl, true, DoubleConv.mk' nch 32 none e.inc,
        Down.mk' 32 64 e.down1, Down.mk' 64 128 e.down2, Down.mk' 128 256 e.down3,
        Down.mk' 256 256 e.down4,
        Up.mk' 512 128 true g.u0, Up.mk' 256 64 true g.u1,
        Up.mk' 128 32 true g.u2, Up.mk' 64 32 true g.u3,
        OutConv.mk' 32 ncl g.oc⟩ := rfl

theorem unet_shf_eval (nch ncl : ℕ) (e : EncW) (g : GroupW) (n h w : ℕ)
    (hh : 16 ≤ h) (hw : 16 ≤ w) :
    (UNet.mk' nch ncl true e g).shf ⟨n, nch, h, w⟩ = some ⟨n, ncl, h, w⟩ := by
  rw [unet_mk_eq_true]
  unfold UNet.shf
  dsimp only
  rw [dcShf_eval _ _ _ _ _ _ _ _ rfl (by omega) (by omega)]
  simp only [Option.some_bind]
  rw [downShf_eval _ _ _ _ _ _ _ rfl (by omega) (by omega)]
  simp only [Option.some_bind]
  rw [downShf_eval _ _ _ _ _ _ _ rfl (by omega) (by omega)]
  simp only [Option.some_bind]
  rw [downShf_eval _ _ _ _ _ _ _ rfl (by omega) (by omega)]
  simp only [Option.some_bind]
  rw [downShf_eval _ _ _ _ _ _ _ rfl (by omega) (by omega)]
  simp only [Option.some_bind]
  rw [upShf_true_eval _ _ _ _ _ _ _ _ _ _ (by omega) (by omega) (by omega) (by omega) (by omega)]
  simp only [Option.some_bind]
  rw [upShf_true_eval _ _ _ _ _ _ _ _ _ _ (by omega) (by omega) (by omega) (by omega) (by omega)]
  simp only [Option.some_bind]
  rw [upShf_true_eval _ _ _ _ _ _ _ _ _ _ (by omega) (by omega) (by omega) (by omega) (by omega)]
  simp only [Option.some_bind]
  rw [upShf_true_eval _ _ _ _ _ _ _ _ _ _ (by omega) (by omega) (by omega) (by omega) (by omega)]
  simp only [Option.some_bind]
  exact ocShf_eval _ _ _ _ _ _ _ rfl (by omega) (by omega)

theorem threeWayUNet_mk_eq_true (nch ncl : ℕ) (e : EncW) (g1 g2 g3 : GroupW) :
    ThreeWayUNet.mk' nch ncl true e g1 g2 g3 =
      ⟨nch, ncl, true, DoubleConv.mk' nch 32 none e.inc,
        Down.mk' 32 64 e.down1, Down.mk' 64 128 e.down2, Down.mk' 128 256 e.down3,
        Down.mk' 256 256 e.down4,
        Up.mk' 512 128 true g1.u0, Up.mk' 256 64 true g1.u1,
        Up.mk' 128 32 true g1.u2, Up.mk' 64 32 true g1.u3, OutConv.mk' 32 3 g1.oc,
        Up.mk' 512 128 true g2.u0, Up.mk' 256 64 true g2.u1,
        Up.mk' 128 32 true g2.u2, Up.mk' 64 32 true g2.u3, OutConv.mk' 32 ncl g2.oc,
        Up.mk' 512 128 true g3.u0, Up.mk' 256 64 true g3.u1,
        Up.mk' 128 32 true g3.u2, Up.mk' 64 32 true g3.u3, OutConv.mk' 32 2 g3.oc⟩ := rfl

theorem threeWayUNet_shf_eval (nch ncl : ℕ) (e : EncW) (g1 g2 g3 : GroupW)
    (n h w : ℕ) (hh : 16 ≤ h) (hw : 16 ≤ w) :
    (ThreeWayUNet.mk' nch ncl true e g1 g2 g3).shf ⟨n, nch, h, w⟩ =
      some (⟨n, 3, h, w⟩, ⟨n, ncl, h, w⟩, ⟨n, 2, h, w⟩) := by
  rw [threeWayUNet_mk_eq_true]
  unfold ThreeWayUNet.shf
  dsimp only
  rw [dcShf_eval _ _ _ _ _ _ _ _ rfl (by omega) (by omega)]
  simp only [Option.some_bind]
  rw [downShf_eval _ _ _ _ _ _ _ rfl (by omega) (by omega)]
  simp only [Option.some_bind]
  rw [downShf_eval _ _ _ _ _ _ _ rfl (by omega) (by omega)]
  simp only [Option.some_bind]
  rw [downShf_eval _ _ _ _ _ _ _ rfl (by omega) (by omega)]
  simp only [Option.some_bind]
  rw [downShf_eval _ _ _ _ _ _ _ rfl (by omega) (by omega)]
  simp only [Option.some_bind]
  rw [upShf_true_eval _ _ _ _ _ _ _ _ _ _ (by omega) (by omega) (by omega) (by omega) (by omega)]
  simp only [Option.some_bind]
  rw [upShf_true_eval _ _ _ _ _ _ _ _ _ _ (by omega) (by omega) (by omega) (by omega) (by omega)]
  simp only [Option.some_bind]
  rw [upShf_true_eval _ _ _ _ _ _ _ _ _ _ (by omega) (by omega) (by omega) (by omega) (by omega)]
  simp only [Option.some_bind]
  rw [upShf_true_eval _ _ _ _ _ _ _ _ _ _ (by omega) (by omega) (by omega) (by omega) (by omega)]
  simp only [Option.some_bind]
  rw [ocShf_eval _ _ _ _ _ _ _ rfl (by omega) (by omega)]
  simp only [Option.some_bind]
  rw [upShf_true_eval _ _ _ _ _ _ _ _ _ _ (by omega) (by omega) (by omega) (by omega) (by omega)]
  simp only [Option.some_bind]
  rw [upShf_true_eval _ _ _ _ _ _ _ _ _ _ (by omega) (by omega) (by omega) (by omega) (by omega)]
  simp only [Option.some_bind]
  rw [upShf_true_eval _ _ _ _ _ _ _ _ _ _ (by omega) (by omega) (by omega) (by omega) (by omega)]
  simp only [Option.some_bind]
  rw [upShf_true_eval _ _ _ _ _ _ _ _ _ _ (by omega) (by omega) (by omega) (by omega) (by omega)]
  simp only [Option.some_bind]
  rw [ocShf_eval _ _ _ _ _ _ _ rfl (by omega) (by omega)]
  simp only [Option.some_bind]
  rw [upShf_true_eval _ _ _ _ _ _ _ _ _ _ (by omega) (by omega) (by omega) (by omega) (by omega)]
  simp only [Option.some_bind]
  rw [upShf_true_eval _ _ _ _ _ _ _ _ _ _ (by omega) (by omega) (by omega) (by omega) (by omega)]
  simp only [Option.some_bind]
  rw [upShf_true_eval _ _ _ _ _ _ _ _ _ _ (by omega) (by omega) (by omega) (by omega) (by omega)]
  simp only [Option.some_bind]
  rw [upShf_true_eval _ _ _ _ _ _ _ _ _ _ (by omega) (by omega) (by omega) (by omega) (by omega)]
  simp only [Option.some_bind]
  rw [ocShf_eval _ _ _ _ _ _ _ rfl (by omega) (by omega)]
  simp only [Option.map_some']

theorem tnet_shf_eval (inC hid : ℕ) (fw bw : TNBW) (g : Tensor5) (c : ℕ)
    (hc : c + g.d2 = inC) (hh : 1 ≤ g.d3) (hw : 1 ≤ g.d4) :
    (TNet.mk' inC hid fw bw).shf g ⟨g.d0, c, g.d3, g.d4⟩ =
      some ⟨g.d0, 16, g.d3, g.d4⟩ := by
  unfold TNet.shf TNet.mk'
  dsimp only
  rw [catSh_eval]
  simp only [Option.some_bind]
  have hs : ((TNetBackBone.mk' inC hid fw).shf
      ⟨g.d0, c + g.d2, g.d3, g.d4⟩).isSome = true := by
    rw [bbShf_eval _ _ _ _ _ _ _ hc hh hw]; rfl
  rw [if_pos (Or.inr hs)]
  exact bbShf_eval _ _ _ _ _ _ _ rfl hh hw

theorem catSh_eval3 (n c1 c2 c3 h w : ℕ) (hc : c1 + c2 = c3) :
    catSh ⟨n, c1, h, w⟩ ⟨n, c2, h, w⟩ = some ⟨n, c3, h, w⟩ := by
  rw [catSh_eval, hc]

theorem cnet_shf_eval (n_oi : ℕ) (w : CNetW) (g : Tensor5)
    (hc : g.d2 = 17) (hh : 16 ≤ g.d3) (hw : 16 ≤ g.d4) :
    (CNet.mk' n_oi w).shf ⟨g.d0, 21, g.d3, g.d4⟩ g =
      some (⟨g.d0, 3, g.d3, g.d4⟩, ⟨g.d0, n_oi, g.d3, g.d4⟩,
        ⟨g.d0, 2, g.d3, g.d4⟩) := by
  unfold CNet.shf CNet.mk'
  dsimp only [mv13Sh, sliceSh, mv31Sh]
  rw [linearSh_eval _ _ _ _ _ _ (by omega)]
  simp only [Option.some_bind]
  rw [catSh_eval3 _ _ _ 37 _ _ (by omega)]
  simp only [Option.some_bind]
  rw [unet_shf_eval _ _ _ _ _ _ _ hh hw]
  simp only [Option.some_bind]
  rw [tnet_shf_eval _ _ _ _ _ _ (by omega) (by omega) (by omega)]
  simp only [Option.some_bind]
  rw [catSh_eval3 _ _ _ 24 _ _ (by omega)]
  simp only [Option.some_bind]
  rw [threeWayUNet_shf_eval _ _ _ _ _ _ _ _ _ hh hw]
  simp only [Option.some_bind]
  rw [rnetShf_eval _ _ _ _ _ _ _ rfl (by omega) (by omega)]
  simp only [Option.some_bind]
  rw [rnetShf_eval _ _ _ _ _ _ _ rfl (by omega) (by omega)]
  simp only [Option.map_some']

/-!
Data-level lemmas about the TNet accumulation loop.
-/

theorem bind_map_comm {α β γ : Type} (A : Option α) (B : α → Option β)
    (f : β → γ) : (A.bind fun y => (B y).map f) = (A.bind B).map f := by
  cases A <;> simp

theorem list_range_map_sum {M : Type} [AddCommMonoid M] (n : ℕ) (f : ℕ → M) :
    ((List.range n).map f).sum = ∑ i ∈ Finset.range n, f i := by
  induction n with
  | zero => simp
  | succ k ih =>
    rw [List.range_succ, List.map_append, List.sum_append, Finset.sum_range_succ, ih]
    simp

theorem sum_range_comp_perm {M : Type} [AddCommMonoid M] (G : ℕ)
    (σ : Equiv.Perm (Fin G)) (f f' : ℕ → M)
    (h : ∀ i : Fin G, f' i.val = f (σ i).val) :
    ((List.range G).map f').sum = ((List.range G).map f).sum := by
  rw [list_range_map_sum, list_range_map_sum,
    ← Fin.sum_univ_eq_sum_range, ← Fin.sum_univ_eq_sum_range]
  rw [Finset.sum_congr rfl fun i _ => h i]
  exact Equiv.sum_comp σ fun j => f j.val

theorem loop_add_some (F : ℕ → Option Tensor4) (T : ℕ → Tensor4) :
    ∀ (l : List ℕ) (acc : Tensor4), (∀ i ∈ l, F i = some (T i)) →
      List.foldlM (fun a i => (F i).map fun z => a.add z) acc l =
        some ⟨acc.d0, acc.d1, acc.d2, acc.d3,
          fun b c h w => acc.data b c h w +
            ((l.map fun i => (T i).data b c h w).sum)⟩ := by
  intro l
  induction l with
  | nil =>
    intro acc _
    simp only [List.foldlM_nil, List.map_nil, List.sum_nil, add_zero]
    rfl
  | cons a t ih =>
    intro acc h
    rw [List.foldlM_cons, h a (List.mem_cons_self a t)]
    show List.foldlM _ (acc.add (T a)) t = _
    rw [ih (acc.add (T a)) fun i hi => h i (List.mem_cons_of_mem a hi)]
    simp only [Option.some.injEq, Tensor4.mk.injEq, Tensor4.add]
    refine ⟨trivial, trivial, trivial, trivial, ?_⟩
    funext b c hh ww
    simp only [List.map_cons, List.sum_cons]
    ring

theorem loop_add_none (F : ℕ → Option Tensor4) :
    ∀ (l : List ℕ) (acc : Tensor4) (i : ℕ), i ∈ l → F i = none →
      List.foldlM (fun a j => (F j).map fun z => a.add z) acc l = none := by
  intro l
  induction l with
  | nil => intro acc i h; simp at h
  | cons a t ih =>
    intro acc i hmem hFi
    rw [List.foldlM_cons]
    rcases List.mem_cons.mp hmem with rfl | hmem'
    · rw [hFi]; rfl
    · cases hFa : F a with
      | none => rfl
      | some ta =>
        show List.foldlM _ (acc.add ta) t = none
        exact ih (acc.add ta) i hmem' hFi

theorem foldl_add_perm {G : ℕ} (F F' : ℕ → Option Tensor4)
    (σ : Equiv.Perm (Fin G)) (h : ∀ i : Fin G, F' i.val = F (σ i).val)
    (acc : Tensor4) :
    List.foldlM (fun a i => (F' i).map fun z => a.add z) acc (List.range G) =
      List.foldlM (fun a i => (F i).map fun z => a.add z) acc (List.range G) := by
  by_cases hall : ∀ i, i < G → (F i).isSome = true
  · have hFT : ∀ i ∈ List.range G, F i = some ((F i).getD (Tensor4.zeros 0 0 0 0)) := by
      intro i hi
      have hs := hall i (List.mem_range.mp hi)
      cases hFi : F i with
      | none => rw [hFi] at hs; simp at hs
      | some t => simp
    have hFT' : ∀ i ∈ List.range G, F' i =
        some (if hi : i < G
          then (F (σ ⟨i, hi⟩).val).getD (Tensor4.zeros 0 0 0 0)
          else Tensor4.zeros 0 0 0 0) := by
      intro i hi
      have hiG := List.mem_range.mp hi
      rw [h ⟨i, hiG⟩, dif_pos hiG]
      exact hFT (σ ⟨i, hiG⟩).val (List.mem_range.mpr (σ ⟨i, hiG⟩).isLt)
    rw [loop_add_some _ _ _ acc hFT', loop_add_some _ _ _ acc hFT]
    simp only [Option.some.injEq, Tensor4.mk.injEq]
    refine ⟨trivial, trivial, trivial, trivial, ?_⟩
    funext b c hh ww
    refine congrArg (fun s => acc.data b c hh ww + s) ?_
    refine sum_range_comp_perm G σ _ _ fun i => ?_
    rw [dif_pos i.isLt]
  · push_neg at hall
    obtain ⟨i, hiG, hns⟩ := hall
    have hFi : F i = none := by
      cases hFi : F i with
      | none => rfl
      | some t => rw [hFi] at hns; simp at hns
    have hFj : F' (σ.symm ⟨i, hiG⟩).val = none := by
      rw [h (σ.symm ⟨i, hiG⟩)]
      simpa using hFi
    rw [loop_add_none _ _ acc i (List.mem_range.mpr hiG) hFi,
      loop_add_none _ _ acc (σ.symm ⟨i, hiG⟩).val
        (List.mem_range.mpr (σ.symm ⟨i, hiG⟩).isLt) hFj]

theorem tensor5_slice_permute (g : Tensor5) (π : Equiv.Perm (Fin g.d1))
    (i : Fin g.d1) : (g.permute π).slice i.val = g.slice (π i).val := by
  unfold Tensor5.permute Tensor5.slice
  simp only [Tensor4.mk.injEq]
  refine ⟨trivial, trivial, trivial, trivial, ?_⟩
  funext b c h w
  rw [dif_pos i.isLt]

theorem tensor5_permute_d0 (g : Tensor5) (π : Equiv.Perm (Fin g.d1)) :
    (g.permute π).d0 = g.d0 := rfl

theorem tensor5_permute_d1 (g : Tensor5) (π : Equiv.Perm (Fin g.d1)) :
    (g.permute π).d1 = g.d1 := rfl

theorem tensor5_permute_d3 (g : Tensor5) (π : Equiv.Perm (Fin g.d1)) :
    (g.permute π).d3 = g.d3 := rfl

theorem tensor5_permute_d4 (g : Tensor5) (π : Equiv.Perm (Fin g.d1)) :
    (g.permute π).d4 = g.d4 := rfl

theorem tnet_forward_perm (m : TNet) (g : Tensor5) (rx : Tensor4)
    (π : Equiv.Perm (Fin g.d1)) :
    TNet.forward m (g.permute π) rx = TNet.forward m g rx := by
  unfold TNet.forward
  simp only [bind_map_comm, tensor5_permute_d0, tensor5_permute_d1,
    tensor5_permute_d3, tensor5_permute_d4]
  refine congrArg (fun o : Option Tensor4 => o.bind fun result => m.tnet_b.forward result) ?_
  exact foldl_add_perm
    (fun i => (cat1 rx (g.slice i)).bind fun y => m.tnet_f.forward y)
    (fun i => (cat1 rx ((g.permute π).slice i)).bind fun y => m.tnet_f.forward y)
    π
    (fun i => by
      show (cat1 rx ((g.permute π).slice i.val)).bind _ =
        (cat1 rx (g.slice (π i).val)).bind _
      rw [tensor5_slice_permute g π i])
    (Tensor4.zeros g.d0 m.hidden g.d3 g.d4)

/-!
Nonnegativity: every TNetBackBone (and hence TNet) output ends in a ReLU.
-/

theorem relu_map_nonneg (o : Option Tensor4) (b c h w : ℕ) :
    0 ≤ ((o.map relu).getD (Tensor4.zeros 0 0 0 0)).data b c h w := by
  cases o with
  | none => exact le_refl 0
  | some t => exact le_max_left 0 _

theorem bind_getD_nonneg (A : Option Tensor4) (k : Tensor4 → Option Tensor4)
    (h : ∀ t b c hh ww, 0 ≤ ((k t).getD (Tensor4.zeros 0 0 0 0)).data b c hh ww)
    (b c hh ww : ℕ) :
    0 ≤ ((A.bind k).getD (Tensor4.zeros 0 0 0 0)).data b c hh ww := by
  cases A with
  | none => exact le_refl 0
  | some t => exact h t b c hh ww

theorem tnetBackBone_forward_nonneg (m : TNetBackBone) (x : Tensor4)
    (b c h w : ℕ) :
    0 ≤ ((m.forward x).getD (Tensor4.zeros 0 0 0 0)).data b c h w := by
  unfold TNetBackBone.forward
  refine bind_getD_nonneg _ _ (fun t1 => ?_) b c h w
  intro b1 c1 h1 w1
  refine bind_getD_nonneg _ _ (fun t2 => ?_) b1 c1 h1 w1
  intro b2 c2 h2 w2
  refine bind_getD_nonneg _ _ (fun t3 => ?_) b2 c2 h2 w2
  intro b3 c3 h3 w3
  exact relu_map_nonneg _ b3 c3 h3 w3

theorem tnet_forward_nonneg (m : TNet) (g : Tensor5) (rx : Tensor4)
    (b c h w : ℕ) :
    0 ≤ ((TNet.forward m g rx).getD (Tensor4.zeros 0 0 0 0)).data b c h w := by
  unfold TNet.forward
  refine bind_getD_nonneg _ _ (fun t => ?_) b c h w
  intro b1 c1 h1 w1
  exact tnetBackBone_forward_nonneg m.tnet_b t b1 c1 h1 w1

/-!
The pad-to-match step of Up: sizes always match the skip tensor afterwards;
when the upsampled tensor is no larger than the skip, the copied region sits
at offset diff // 2 (floor division) on the low side, with zeros below it.
-/

theorem padToMatch_d2 (x1 x2 : Tensor4) : (Up.padToMatch x1 x2).d2 = x2.d2 := by
  have := sh_padToMatch x1 x2
  exact congrArg Sh.h this

theorem padToMatch_d3 (x1 x2 : Tensor4) : (Up.padToMatch x1 x2).d3 = x2.d3 := by
  have := sh_padToMatch x1 x2
  exact congrArg Sh.w this

theorem padToMatch_data_copy (x1 x2 : Tensor4) (h2 : x1.d2 ≤ x2.d2)
    (h3 : x1.d3 ≤ x2.d3) (b c y x : ℕ) (hy : y < x1.d2) (hx : x < x1.d3) :
    (Up.padToMatch x1 x2).data b c
        (y + (((x2.d2 : ℤ) - (x1.d2 : ℤ)).fdiv 2).toNat)
        (x + (((x2.d3 : ℤ) - (x1.d3 : ℤ)).fdiv 2).toNat) =
      x1.data b c y x := by
  have hfy : (0 : ℤ) ≤ ((x2.d2 : ℤ) - (x1.d2 : ℤ)).fdiv 2 := by
    apply Int.fdiv_nonneg <;> omega
  have hfx : (0 : ℤ) ≤ ((x2.d3 : ℤ) - (x1.d3 : ℤ)).fdiv 2 := by
    apply Int.fdiv_nonneg <;> omega
  unfold Up.padToMatch pad2d
  dsimp only
  generalize hqy : ((x2.d2 : ℤ) - (x1.d2 : ℤ)).fdiv 2 = qy at hfy ⊢
  generalize hqx : ((x2.d3 : ℤ) - (x1.d3 : ℤ)).fdiv 2 = qx at hfx ⊢
  rw [if_pos]
  · have e1 : ((((y + qy.toNat) : ℕ) : ℤ) - qy).toNat = y := by omega
    have e2 : ((((x + qx.toNat) : ℕ) : ℤ) - qx).toNat = x := by omega
    rw [e1, e2]
  · refine ⟨by omega, by omega, by omega, by omega⟩

theorem padToMatch_data_low_zero (x1 x2 : Tensor4) (b c y x : ℕ)
    (hy : (y : ℤ) < ((x2.d2 : ℤ) - (x1.d2 : ℤ)).fdiv 2) :
    (Up.padToMatch x1 x2).data b c y x = 0 := by
  unfold Up.padToMatch pad2d
  dsimp only
  generalize hqy : ((x2.d2 : ℤ) - (x1.d2 : ℤ)).fdiv 2 = qy at hy ⊢
  rw [if_neg]
  intro hcon
  obtain ⟨hc1, -⟩ := hcon
  omega

/-!
OutConv is affine: the 1x1 convolution carries a bias, so the linear-combination
identity holds exactly when the coefficients sum to 1.
-/

theorem outConv_forward_affine (m : OutConv) (t1 t2 : Tensor4) (a b : ℚ)
    (hsh : t1.sh = t2.sh) (hab : a + b = 1) :
    Tensor4.EqOn
      ((OutConv.forward m ((Tensor4.smul a t1).add (Tensor4.smul b t2))).getD
        (Tensor4.zeros 0 0 0 0))
      ((Tensor4.smul a ((OutConv.forward m t1).getD (Tensor4.zeros 0 0 0 0))).add
        (Tensor4.smul b ((OutConv.forward m t2).getD (Tensor4.zeros 0 0 0 0)))) := by
  have h0 : t1.d0 = t2.d0 := congrArg Sh.n hsh
  have h1 : t1.d1 = t2.d1 := congrArg Sh.c hsh
  have h2 : t1.d2 = t2.d2 := congrArg Sh.h hsh
  have h3 : t1.d3 = t2.d3 := congrArg Sh.w hsh
  unfold OutConv.forward conv2d
  by_cases hg : t1.d1 = m.in_channels ∧ 1 ≤ t1.d2 + 2 * 0 ∧ 1 ≤ t1.d3 + 2 * 0
  · obtain ⟨hg1, hg2, hg3⟩ := hg
    rw [if_pos (show ((Tensor4.smul a t1).add (Tensor4.smul b t2)).d1 = m.in_channels ∧
        1 ≤ ((Tensor4.smul a t1).add (Tensor4.smul b t2)).d2 + 2 * 0 ∧
        1 ≤ ((Tensor4.smul a t1).add (Tensor4.smul b t2)).d3 + 2 * 0
      from ⟨hg1, hg2, hg3⟩)]
    rw [if_pos (show t1.d1 = m.in_channels ∧ 1 ≤ t1.d2 + 2 * 0 ∧ 1 ≤ t1.d3 + 2 * 0
      from ⟨hg1, hg2, hg3⟩)]
    rw [if_pos (show t2.d1 = m.in_channels ∧ 1 ≤ t2.d2 + 2 * 0 ∧ 1 ≤ t2.d3 + 2 * 0
      from ⟨by omega, by omega, by omega⟩)]
    simp only [Option.getD_some]
    refine ⟨rfl, rfl, rfl, rfl, ?_⟩
    intro n hn c hc yy hy xx hx
    simp only [Tensor4.add, Tensor4.smul, Tensor4.zeros]
    rw [← h2, ← h3]
    simp only [Finset.sum_range_one]
    have key : ∀ ci ∈ Finset.range m.in_channels,
        m.conv.w c ci 0 0 *
          (if 0 ≤ yy + 0 ∧ yy + 0 - 0 < t1.d2 ∧ 0 ≤ xx + 0 ∧ xx + 0 - 0 < t1.d3
           then a * t1.data n ci (yy + 0 - 0) (xx + 0 - 0) +
                b * t2.data n ci (yy + 0 - 0) (xx + 0 - 0) else 0) =
        a * (m.conv.w c ci 0 0 *
          (if 0 ≤ yy + 0 ∧ yy + 0 - 0 < t1.d2 ∧ 0 ≤ xx + 0 ∧ xx + 0 - 0 < t1.d3
           then t1.data n ci (yy + 0 - 0) (xx + 0 - 0) else 0)) +
        b * (m.conv.w c ci 0 0 *
          (if 0 ≤ yy + 0 ∧ yy + 0 - 0 < t1.d2 ∧ 0 ≤ xx + 0 ∧ xx + 0 - 0 < t1.d3
           then t2.data n ci (yy + 0 - 0) (xx + 0 - 0) else 0)) := by
      intro ci _
      split_ifs with hcond
      · ring
      · ring
    rw [Finset.sum_congr rfl key, Finset.sum_add_distrib, ← Finset.mul_sum,
      ← Finset.mul_sum]
    linear_combination (-(m.conv.b c)) * hab
  · rw [if_neg (show ¬(((Tensor4.smul a t1).add (Tensor4.smul b t2)).d1 = m.in_channels ∧
        1 ≤ ((Tensor4.smul a t1).add (Tensor4.smul b t2)).d2 + 2 * 0 ∧
        1 ≤ ((Tensor4.smul a t1).add (Tensor4.smul b t2)).d3 + 2 * 0)
      from hg)]
    rw [if_neg hg]
    rw [if_neg (show ¬(t2.d1 = m.in_channels ∧ 1 ≤ t2.d2 + 2 * 0 ∧ 1 ≤ t2.d3 + 2 * 0)
      from fun hcon => hg ⟨by omega, by omega, by omega⟩)]
    exact ⟨rfl, rfl, rfl, rfl, fun n hn => absurd hn (Nat.not_lt_zero n)⟩

/-!
Parameter isolation of the three decoder groups of ThreeWayUNet.
-/

theorem decode_chain_sh (u0 u1 u2 u3 : Up) (oc : OutConv)
    (x5 x4 x3 x2 x1 : Tensor4) :
    ((u0.forward x5 x4).bind fun o =>
     (u1.forward o x3).bind fun o =>
     (u2.forward o x2).bind fun o =>
     (u3.forward o x1).bind fun o =>
     oc.forward o).map Tensor4.sh =
    ((u0.shf x5.sh x4.sh).bind fun s =>
     (u1.shf s x3.sh).bind fun s =>
     (u2.shf s x2.sh).bind fun s =>
     (u3.shf s x1.sh).bind fun s =>
     oc.shf s) := by
  refine map_step_bind _ _ Tensor4.sh Tensor4.sh _ _ (up_forward_sh u0 x5 x4) fun o => ?_
  refine map_step_bind _ _ Tensor4.sh Tensor4.sh _ _ (up_forward_sh u1 o x3) fun o => ?_
  refine map_step_bind _ _ Tensor4.sh Tensor4.sh _ _ (up_forward_sh u2 o x2) fun o => ?_
  refine map_step_bind _ _ Tensor4.sh Tensor4.sh _ _ (up_forward_sh u3 o x1) fun o => ?_
  exact outConv_forward_sh oc o

theorem isSome_of_map_sh {o oo : Option Tensor4}
    (h : o.map Tensor4.sh = oo.map Tensor4.sh) : o.isSome = oo.isSome := by
  cases o <;> cases oo <;> simp_all

theorem bind_const_irrel {α β : Type} (A B : Option α)
    (h : A.isSome = B.isSome) (R : Option β) :
    (A.bind fun _ => R) = B.bind fun _ => R := by
  cases A <;> cases B <;> simp_all

theorem map_const_irrel {α β : Type} (A B : Option α)
    (h : A.isSome = B.isSome) (c : β) :
    (A.map fun _ => c) = B.map fun _ => c := by
  cases A <;> cases B <;> simp_all

theorem map_proj_first (dg1 dg2 dg3 : Option Tensor4) :
    ((dg1.bind fun out1 => dg2.bind fun out2 => dg3.map fun out3 =>
        (out1, out2, out3)).map
      fun t : Tensor4 × Tensor4 × Tensor4 => (t.2.1, t.2.2)) =
    dg1.bind fun _ => dg2.bind fun out2 => dg3.map fun out3 => (out2, out3) := by
  cases dg1 <;> cases dg2 <;> cases dg3 <;> rfl

theorem map_proj_mid (dg2 dg3 : Option Tensor4) (out1 : Tensor4) :
    ((dg2.bind fun out2 => dg3.map fun out3 => (out1, out2, out3)).map
      fun t : Tensor4 × Tensor4 × Tensor4 => (t.1, t.2.2)) =
    dg2.bind fun _ => dg3.map fun out3 => (out1, out3) := by
  cases dg2 <;> cases dg3 <;> rfl

theorem map_proj_last (dg3 : Option Tensor4) (out1 out2 : Tensor4) :
    ((dg3.map fun out3 => (out1, out2, out3)).map
      fun t : Tensor4 × Tensor4 × Tensor4 => (t.1, t.2.1)) =
    dg3.map fun _ => (out1, out2) := by
  cases dg3 <;> rfl

theorem threeway_isolation_g1_gen (m m' : ThreeWayUNet) (x : Tensor4)
    (hinc : m.inc = m'.inc) (hd1 : m.down1 = m'.down1) (hd2 : m.down2 = m'.down2)
    (hd3 : m.down3 = m'.down3) (hd4 : m.down4 = m'.down4)
    (h20 : m.up_group_2_0 = m'.up_group_2_0) (h21 : m.up_group_2_1 = m'.up_group_2_1)
    (h22 : m.up_group_2_2 = m'.up_group_2_2) (h23 : m.up_group_2_3 = m'.up_group_2_3)
    (h24 : m.up_group_2_4 = m'.up_group_2_4)
    (h30 : m.up_group_3_0 = m'.up_group_3_0) (h31 : m.up_group_3_1 = m'.up_group_3_1)
    (h32 : m.up_group_3_2 = m'.up_group_3_2) (h33 : m.up_group_3_3 = m'.up_group_3_3)
    (h34 : m.up_group_3_4 = m'.up_group_3_4)
    (hsh1 : ∀ s5 s4 s3 s2 s1 : Sh,
      ((m.up_group_1_0.shf s5 s4).bind fun s =>
       (m.up_group_1_1.shf s s3).bind fun s =>
       (m.up_group_1_2.shf s s2).bind fun s =>
       (m.up_group_1_3.shf s s1).bind fun s =>
       m.up_group_1_4.shf s) =
      ((m'.up_group_1_0.shf s5 s4).bind fun s =>
       (m'.up_group_1_1.shf s s3).bind fun s =>
       (m'.up_group_1_2.shf s s2).bind fun s =>
       (m'.up_group_1_3.shf s s1).bind fun s =>
       m'.up_group_1_4.shf s)) :
    ((m.forward x).map fun t => (t.2.1, t.2.2)) =
      ((m'.forward x).map fun t => (t.2.1, t.2.2)) := by
  unfold ThreeWayUNet.forward
  rw [← hinc, ← hd1, ← hd2, ← hd3, ← hd4, ← h20, ← h21, ← h22, ← h23, ← h24,
    ← h30, ← h31, ← h32, ← h33, ← h34]
  cases m.inc.forward x with
  | none => rfl
  | some x1 =>
  simp only [Option.some_bind]
  cases m.down1.forward x1 with
  | none => rfl
  | some x2 =>
  simp only [Option.some_bind]
  cases m.down2.forward x2 with
  | none => rfl
  | some x3 =>
  simp only [Option.some_bind]
  cases m.down3.forward x3 with
  | none => rfl
  | some x4 =>
  simp only [Option.some_bind]
  cases m.down4.forward x4 with
  | none => rfl
  | some x5 =>
  simp only [Option.some_bind]
  rw [map_proj_first, map_proj_first]
  refine bind_const_irrel _ _ ?_ _
  refine isSome_of_map_sh ?_
  rw [decode_chain_sh, decode_chain_sh, hsh1]

theorem threeway_isolation_g2_gen (m m' : ThreeWayUNet) (x : Tensor4)
    (hinc : m.inc = m'.inc) (hd1 : m.down1 = m'.down1) (hd2 : m.down2 = m'.down2)
    (hd3 : m.down3 = m'.down3) (hd4 : m.down4 = m'.down4)
    (h10 : m.up_group_1_0 = m'.up_group_1_0) (h11 : m.up_group_1_1 = m'.up_group_1_1)
    (h12 : m.up_group_1_2 = m'.up_group_1_2) (h13 : m.up_group_1_3 = m'.up_group_1_3)
    (h14 : m.up_group_1_4 = m'.up_group_1_4)
    (h30 : m.up_group_3_0 = m'.up_group_3_0) (h31 : m.up_group_3_1 = m'.up_group_3_1)
    (h32 : m.up_group_3_2 = m'.up_group_3_2) (h33 : m.up_group_3_3 = m'.up_group_3_3)
    (h34 : m.up_group_3_4 = m'.up_group_3_4)
    (hsh2 : ∀ s5 s4 s3 s2 s1 : Sh,
      ((m.up_group_2_0.shf s5 s4).bind fun s =>
       (m.up_group_2_1.shf s s3).bind fun s =>
       (m.up_group_2_2.shf s s2).bind fun s =>
       (m.up_group_2_3.shf s s1).bind fun s =>
       m.up_group_2_4.shf s) =
      ((m'.up_group_2_0.shf s5 s4).bind fun s =>
       (m'.up_group_2_1.shf s s3).bind fun s =>
       (m'.up_group_2_2.shf s s2).bind fun s =>
       (m'.up_group_2_3.shf s s1).bind fun s =>
       m'.up_group_2_4.shf s)) :
    ((m.forward x).map fun t => (t.1, t.2.2)) =
      ((m'.forward x).map fun t => (t.1, t.2.2)) := by
  unfold ThreeWayUNet.forward
  rw [← hinc, ← hd1, ← hd2, ← hd3, ← hd4, ← h10, ← h11, ← h12, ← h13, ← h14,
    ← h30, ← h31, ← h32, ← h33, ← h34]
  cases m.inc.forward x with
  | none => rfl
  | some x1 =>
  simp only [Option.some_bind]
  cases m.down1.forward x1 with
  | none => rfl
  | some x2 =>
  simp only [Option.some_bind]
  cases m.down2.forward x2 with
  | none => rfl
  | some x3 =>
  simp only [Option.some_bind]
  cases m.down3.forward x3 with
  | none => rfl
  | some x4 =>
  simp only [Option.some_bind]
  cases m.down4.forward x4 with
  | none => rfl
  | some x5 =>
  simp only [Option.some_bind]
  cases (m.up_group_1_0.forward x5 x4).bind fun o =>
      (m.up_group_1_1.forward o x3).bind fun o =>
      (m.up_group_1_2.forward o x2).bind fun o =>
      (m.up_group_1_3.forward o x1).bind fun o =>
      m.up_group_1_4.forward o with
  | none => rfl
  | some out1 =>
  simp only [Option.some_bind]
  rw [map_proj_mid, map_proj_mid]
  refine bind_const_irrel _ _ ?_ _
  refine isSome_of_map_sh ?_
  rw [decode_chain_sh, decode_chain_sh, hsh2]

theorem threeway_isolation_g3_gen (m m' : ThreeWayUNet) (x : Tensor4)
    (hinc : m.inc = m'.inc) (hd1 : m.down1 = m'.down1) (hd2 : m.down2 = m'.down2)
    (hd3 : m.down3 = m'.down3) (hd4 : m.down4 = m'.down4)
    (h10 : m.up_group_1_0 = m'.up_group_1_0) (h11 : m.up_group_1_1 = m'.up_group_1_1)
    (h12 : m.up_group_1_2 = m'.up_group_1_2) (h13 : m.up_group_1_3 = m'.up_group_1_3)
    (h14 : m.up_group_1_4 = m'.up_group_1_4)
    (h20 : m.up_group_2_0 = m'.up_group_2_0) (h21 : m.up_group_2_1 = m'.up_group_2_1)
    (h22 : m.up_group_2_2 = m'.up_group_2_2) (h23 : m.up_group_2_3 = m'.up_group_2_3)
    (h24 : m.up_group_2_4 = m'.up_group_2_4)
    (hsh3 : ∀ s5 s4 s3 s2 s1 : Sh,
      ((m.up_group_3_0.shf s5 s4).bind fun s =>
       (m.up_group_3_1.shf s s3).bind fun s =>
       (m.up_group_3_2.shf s s2).bind fun s =>
       (m.up_group_3_3.shf s s1).bind fun s =>
       m.up_group_3_4.shf s) =
      ((m'.up_group_3_0.shf s5 s4).bind fun s =>
       (m'.up_group_3_1.shf s s3).bind fun s =>
       (m'.up_group_3_2.shf s s2).bind fun s =>
       (m'.up_group_3_3.shf s s1).bind fun s =>
       m'.up_group_3_4.shf s)) :
    ((m.forward x).map fun t => (t.1, t.2.1)) =
      ((m'.forward x).map fun t => (t.1, t.2.1)) := by
  unfold ThreeWayUNet.forward
  rw [← hinc, ← hd1, ← hd2, ← hd3, ← hd4, ← h10, ← h11, ← h12, ← h13, ← h14,
    ← h20, ← h21, ← h22, ← h23, ← h24]
  cases m.inc.forward x with
  | none => rfl
  | some x1 =>
  simp only [Option.some_bind]
  cases m.down1.forward x1 with
  | none => rfl
  | some x2 =>
  simp only [Option.some_bind]
  cases m.down2.forward x2 with
  | none => rfl
  | some x3 =>
  simp only [Option.some_bind]
  cases m.down3.forward x3 with
  | none => rfl
  | some x4 =>
  simp only [Option.some_bind]
  cases m.down4.forward x4 with
  | none => rfl
  | some x5 =>
  simp only [Option.some_bind]
  cases (m.up_group_1_0.forward x5 x4).bind fun o =>
      (m.up_group_1_1.forward o x3).bind fun o =>
      (m.up_group_1_2.forward o x2).bind fun o =>
      (m.up_group_1_3.forward o x1).bind fun o =>
      m.up_group_1_4.forward o with
  | none => rfl
  | some out1 =>
  simp only [Option.some_bind]
  cases (m.up_group_2_0.forward x5 x4).bind fun o =>
      (m.up_group_2_1.forward o x3).bind fun o =>
      (m.up_group_2_2.forward o x2).bind fun o =>
      (m.up_group_2_3.forward o x1).bind fun o =>
      m.up_group_2_4.forward o with
  | none => rfl
  | some out2 =>
  simp only [Option.some_bind]
  rw [map_proj_last, map_proj_last]
  refine map_const_irrel _ _ ?_ _
  refine isSome_of_map_sh ?_
  rw [decode_chain_sh, decode_chain_sh, hsh3]

/-!
The claims.
-/

/-- C1: TNet.forward is invariant under any permutation of the glass axis:
for every TNet instance, every glass tensor g, every conditioning map rx and
every permutation of the indices of axis 1, the forward result is exactly the
same, because the per-index backbone results are combined by pure summation. -/
theorem claim_C1_tnet_permutation_invariance (m : TNet) (g : Tensor5)
    (rx : Tensor4) (π : Equiv.Perm (Fin g.d1)) :
    TNet.forward m g rx = TNet.forward m (g.permute π) rx :=
  (tnet_forward_perm m g rx π).symm

/-- C5: the pad-to-match step of Up.forward (which forward performs right
before the concatenation cat [x2, x1]) makes the spatial size of the upsampled
tensor exactly equal to the skip tensor's; when the skip is at least as large,
the copied region sits at offset diffY // 2 rows (diffX // 2 columns,
python floor division) on the low side, with zero padding below, so the low
pad is diff // 2 and the high pad is diff - diff // 2. -/
theorem claim_C5_up_pad_split (x1 x2 : Tensor4) (h2 : x1.d2 ≤ x2.d2)
    (h3 : x1.d3 ≤ x2.d3) :
    (Up.padToMatch x1 x2).d2 = x2.d2 ∧ (Up.padToMatch x1 x2).d3 = x2.d3 ∧
    (∀ (m : Up) (x0 : Tensor4), m.forward x0 x2 = (m.upStep x0).bind fun x1u =>
      (cat1 x2 (Up.padToMatch x1u x2)).bind fun xc => m.conv.forward xc) ∧
    (∀ (b c y x : ℕ), y < x1.d2 → x < x1.d3 → (Up.padToMatch x1 x2).data b c
        (y + (((x2.d2 : ℤ) - (x1.d2 : ℤ)).fdiv 2).toNat)
        (x + (((x2.d3 : ℤ) - (x1.d3 : ℤ)).fdiv 2).toNat) = x1.data b c y x) ∧
    (∀ (b c y x : ℕ), (y : ℤ) < ((x2.d2 : ℤ) - (x1.d2 : ℤ)).fdiv 2 →
      (Up.padToMatch x1 x2).data b c y x = 0) :=
  ⟨padToMatch_d2 x1 x2, padToMatch_d3 x1 x2, fun _ _ => rfl,
    fun b c y x hy hx => padToMatch_data_copy x1 x2 h2 h3 b c y x hy hx,
    fun b c y x hy => padToMatch_data_low_zero x1 x2 b c y x hy⟩

/-- Witness for C5 at the synthetic case H1 = 7, H2 = 8 from the spec:
dY = 1, low pad = 1 // 2 = 0, high pad = 1 - 0 = 1. -/
theorem claim_C5_up_pad_split_witness :
    ((((8 : ℤ) - 7).fdiv 2 = 0 ∧ (8 : ℤ) - 7 - ((8 : ℤ) - 7).fdiv 2 = 1) ∧
      (7 ≤ 8 ∧ 7 ≤ 8)) ∧
    ((Up.padToMatch ⟨1, 1, 7, 7, fun _ _ _ _ => 5⟩ (Tensor4.zeros 1 1 8 8)).d2 =
        (Tensor4.zeros 1 1 8 8).d2 ∧
      (Up.padToMatch ⟨1, 1, 7, 7, fun _ _ _ _ => 5⟩ (Tensor4.zeros 1 1 8 8)).d3 =
        (Tensor4.zeros 1 1 8 8).d3 ∧
      (∀ (m : Up) (x0 : Tensor4), m.forward x0 (Tensor4.zeros 1 1 8 8) =
        (m.upStep x0).bind fun x1u =>
          (cat1 (Tensor4.zeros 1 1 8 8)
            (Up.padToMatch x1u (Tensor4.zeros 1 1 8 8))).bind fun xc =>
            m.conv.forward xc) ∧
      (∀ (b c y x : ℕ), y < (⟨1, 1, 7, 7, fun _ _ _ _ => 5⟩ : Tensor4).d2 →
        x < (⟨1, 1, 7, 7, fun _ _ _ _ => 5⟩ : Tensor4).d3 →
        (Up.padToMatch ⟨1, 1, 7, 7, fun _ _ _ _ => 5⟩ (Tensor4.zeros 1 1 8 8)).data b c
          (y + ((((Tensor4.zeros 1 1 8 8).d2 : ℤ) -
            ((⟨1, 1, 7, 7, fun _ _ _ _ => 5⟩ : Tensor4).d2 : ℤ)).fdiv 2).toNat)
          (x + ((((Tensor4.zeros 1 1 8 8).d3 : ℤ) -
            ((⟨1, 1, 7, 7, fun _ _ _ _ => 5⟩ : Tensor4).d3 : ℤ)).fdiv 2).toNat) =
          (⟨1, 1, 7, 7, fun _ _ _ _ => 5⟩ : Tensor4).data b c y x) ∧
      (∀ (b c y x : ℕ), (y : ℤ) < (((Tensor4.zeros 1 1 8 8).d2 : ℤ) -
          ((⟨1, 1, 7, 7, fun _ _ _ _ => 5⟩ : Tensor4).d2 : ℤ)).fdiv 2 →
        (Up.padToMatch ⟨1, 1, 7, 7, fun _ _ _ _ => 5⟩
          (Tensor4.zeros 1 1 8 8)).data b c y x = 0)) :=
  ⟨⟨⟨by decide, by decide⟩, ⟨by decide, by decide⟩⟩,
    claim_C5_up_pad_split ⟨1, 1, 7, 7, fun _ _ _ _ => 5⟩ (Tensor4.zeros 1 1 8 8)
      (by decide) (by decide)⟩

/-- C7: in CNet.forward the trunk result (normal, oi, uv) produced by the
ThreeWayUNet is post-processed by exactly the RNet configured 2 to 2 channels
on the uv head and the RNet configured 3 to 3 channels on the normal head,
while the oi head is returned unchanged, and the triple is returned in the
fixed order (normal, oi, uv). -/
theorem claim_C7_cnet_refinement_wiring (n_oi : ℕ) (w : CNetW) (x : Tensor4)
    (g : Tensor5) :
    (CNet.forward (CNet.mk' n_oi w) x g =
      ((fc_layer 3 16 (CNet.mk' n_oi w).inner_pos (moveaxis13 (slice_4_7 x))).bind fun pe =>
       (cat1 x (moveaxis31 pe)).bind fun xx =>
       ((CNet.mk' n_oi w).unet.forward xx).bind fun rx =>
       ((CNet.mk' n_oi w).tnet.forward g rx).bind fun tx =>
       (cat1 rx tx).bind fun rtx =>
       (CNet.mk' n_oi w).r_unet.forward rtx).bind fun out =>
      ((CNet.mk' n_oi w).rnet_uv.forward out.2.2).bind fun uv =>
      ((CNet.mk' n_oi w).rnet_normal.forward out.1).map fun normal =>
      (normal, out.2.1, uv)) ∧
    (CNet.mk' n_oi w).rnet_uv = RNet.mk' 2 2 w.ruv ∧
    (CNet.mk' n_oi w).rnet_normal = RNet.mk' 3 3 w.rnormal ∧
    (CNet.mk' n_oi w).rnet_uv.in_channel = 2 ∧
    (CNet.mk' n_oi w).rnet_uv.out_channel = 2 ∧
    (CNet.mk' n_oi w).rnet_normal.in_channel = 3 ∧
    (CNet.mk' n_oi w).rnet_normal.out_channel = 3 := by
  refine ⟨?_, rfl, rfl, rfl, rfl, rfl, rfl⟩
  unfold CNet.forward
  dsimp only
  cases fc_layer 3 16 (CNet.mk' n_oi w).inner_pos (moveaxis13 (slice_4_7 x)) with
  | none => rfl
  | some pe =>
  simp only [Option.some_bind]
  cases cat1 x (moveaxis31 pe) with
  | none => rfl
  | some xx =>
  simp only [Option.some_bind]
  cases (CNet.mk' n_oi w).unet.forward xx with
  | none => rfl
  | some rx =>
  simp only [Option.some_bind]
  cases (CNet.mk' n_oi w).tnet.forward g rx with
  | none => rfl
  | some tx =>
  simp only [Option.some_bind]
  cases cat1 rx tx with
  | none => rfl
  | some rtx =>
  simp only [Option.some_bind]

/-- C8: CrystalNet.forward is a pure pass-through: it returns exactly the
triple computed by its wrapped CNet instance, unchanged. -/
theorem claim_C8_crystalnet_passthrough (m : CrystalNet) (x : Tensor4)
    (g : Tensor5) :
    CrystalNet.forward m x g = CNet.forward m.cnet x g :=
  crystalNet_forward_eq m x g

/-- C9: every TNetBackBone output is elementwise nonnegative because its final
1x1 convolution is followed by a ReLU, and hence every TNet output (which ends
with the tnet_b backbone) is elementwise nonnegative; an erroring forward is
read as the all-zero default, which is also nonnegative. -/
theorem claim_C9_tnet_output_nonneg :
    (∀ (m : TNetBackBone) (x : Tensor4) (b c h w : ℕ),
      0 ≤ ((m.forward x).getD (Tensor4.zeros 0 0 0 0)).data b c h w) ∧
    (∀ (m : TNet) (g : Tensor5) (rx : Tensor4) (b c h w : ℕ),
      0 ≤ ((TNet.forward m g rx).getD (Tensor4.zeros 0 0 0 0)).data b c h w) :=
  ⟨tnetBackBone_forward_nonneg, tnet_forward_nonneg⟩

/-- C2 counterexample: OutConv.forward is not a linear map as claimed.  For
the OutConv with 1 input and 1 output channel, zero kernel and bias 1, and
a = b = 0 on the all-zero 1x1x1x1 input, OutConv(0 t + 0 t) has the entry
bias = 1 while 0 OutConv(t) + 0 OutConv(t) has the entry 0: the 1x1
convolution carries a bias, so it is affine, not linear. -/
theorem claim_C2_counterexample :
    ¬ Tensor4.EqOn
      ((OutConv.forward (OutConv.mk' 1 1 ⟨fun _ _ _ _ => 0, fun _ => 1⟩)
          ((Tensor4.smul 0 (Tensor4.zeros 1 1 1 1)).add
            (Tensor4.smul 0 (Tensor4.zeros 1 1 1 1)))).getD (Tensor4.zeros 0 0 0 0))
      ((Tensor4.smul 0 ((OutConv.forward (OutConv.mk' 1 1 ⟨fun _ _ _ _ => 0, fun _ => 1⟩)
          (Tensor4.zeros 1 1 1 1)).getD (Tensor4.zeros 0 0 0 0))).add
        (Tensor4.smul 0 ((OutConv.forward (OutConv.mk' 1 1 ⟨fun _ _ _ _ => 0, fun _ => 1⟩)
          (Tensor4.zeros 1 1 1 1)).getD (Tensor4.zeros 0 0 0 0)))) := by
  intro hE
  obtain ⟨-, -, -, -, hd⟩ := hE
  have h := hd 0 Nat.one_pos 0 Nat.one_pos 0 Nat.one_pos 0 Nat.one_pos
  simp [OutConv.forward, OutConv.mk', conv2d, Tensor4.add, Tensor4.smul,
    Tensor4.zeros, Finset.sum_range_one] at h

/-- C2 (amended): OutConv.forward is affine rather than linear.  Its 1x1
convolution carries a bias, so for same-shaped inputs t1, t2 the identity
OutConv(a t1 + b t2) = a OutConv(t1) + b OutConv(t2) holds exactly when the
scalars satisfy a + b = 1 (in particular it is fully linear only for zero
bias); an erroring forward is read as the all-zero default on both sides. -/
theorem claim_C2_outconv_affine (m : OutConv) (t1 t2 : Tensor4) (a b : ℚ)
    (hsh : t1.sh = t2.sh) (hab : a + b = 1) :
    Tensor4.EqOn
      ((OutConv.forward m ((Tensor4.smul a t1).add (Tensor4.smul b t2))).getD
        (Tensor4.zeros 0 0 0 0))
      ((Tensor4.smul a ((OutConv.forward m t1).getD (Tensor4.zeros 0 0 0 0))).add
        (Tensor4.smul b ((OutConv.forward m t2).getD (Tensor4.zeros 0 0 0 0)))) :=
  outConv_forward_affine m t1 t2 a b hsh hab

/-- Witness for the amended C2 at the OutConv with bias 1, equal inputs and
the coefficients a = 1, b = 0 with a + b = 1. -/
theorem claim_C2_outconv_affine_witness :
    ((Tensor4.zeros 1 1 1 1).sh = (Tensor4.zeros 1 1 1 1).sh ∧ (1 : ℚ) + 0 = 1) ∧
    Tensor4.EqOn
      ((OutConv.forward (OutConv.mk' 1 1 ⟨fun _ _ _ _ => 0, fun _ => 1⟩)
          ((Tensor4.smul 1 (Tensor4.zeros 1 1 1 1)).add
            (Tensor4.smul 0 (Tensor4.zeros 1 1 1 1)))).getD (Tensor4.zeros 0 0 0 0))
      ((Tensor4.smul 1 ((OutConv.forward (OutConv.mk' 1 1 ⟨fun _ _ _ _ => 0, fun _ => 1⟩)
          (Tensor4.zeros 1 1 1 1)).getD (Tensor4.zeros 0 0 0 0))).add
        (Tensor4.smul 0 ((OutConv.forward (OutConv.mk' 1 1 ⟨fun _ _ _ _ => 0, fun _ => 1⟩)
          (Tensor4.zeros 1 1 1 1)).getD (Tensor4.zeros 0 0 0 0)))) :=
  ⟨⟨rfl, by norm_num⟩,
    claim_C2_outconv_affine (OutConv.mk' 1 1 ⟨fun _ _ _ _ => 0, fun _ => 1⟩)
      (Tensor4.zeros 1 1 1 1) (Tensor4.zeros 1 1 1 1) 1 0 rfl (by norm_num)⟩

/-- C4: when the glass axis is empty (g.d1 = 0) the TNet loop body never runs
and TNet.forward returns tnet_b applied to the all-zero accumulator of shape
(batch, hidden, H, W); with nonempty spatial axes the result is a well-defined
some, so no error is raised. -/
theorem claim_C4_tnet_empty_glass (in_channel hidden : ℕ) (fw bw : TNBW)
    (g : Tensor5) (rx : Tensor4) (hG : g.d1 = 0) :
    TNet.forward (TNet.mk' in_channel hidden fw bw) g rx =
      TNetBackBone.forward (TNet.mk' in_channel hidden fw bw).tnet_b
        (Tensor4.zeros g.d0 hidden g.d3 g.d4) ∧
    (1 ≤ g.d3 → 1 ≤ g.d4 →
      (TNet.forward (TNet.mk' in_channel hidden fw bw) g rx).isSome = true) := by
  have heq : TNet.forward (TNet.mk' in_channel hidden fw bw) g rx =
      TNetBackBone.forward (TNet.mk' in_channel hidden fw bw).tnet_b
        (Tensor4.zeros g.d0 hidden g.d3 g.d4) := by
    unfold TNet.forward
    simp only [hG]
    rfl
  refine ⟨heq, fun h3 h4 => ?_⟩
  rw [heq]
  have hsh := tnetBackBone_forward_sh (TNet.mk' in_channel hidden fw bw).tnet_b
    (Tensor4.zeros g.d0 hidden g.d3 g.d4)
  have hev : (TNet.mk' in_channel hidden fw bw).tnet_b.shf
      (Tensor4.zeros g.d0 hidden g.d3 g.d4).sh = some ⟨g.d0, 16, g.d3, g.d4⟩ :=
    bbShf_eval hidden 16 bw g.d0 hidden g.d3 g.d4 rfl h3 h4
  rw [hev] at hsh
  cases hf : TNetBackBone.forward (TNet.mk' in_channel hidden fw bw).tnet_b
      (Tensor4.zeros g.d0 hidden g.d3 g.d4) with
  | none => rw [hf] at hsh; simp at hsh
  | some t => rfl

/-- Witness for C4 at a concrete empty glass tensor with batch 1, hidden 1 and
1 by 1 spatial size. -/
theorem claim_C4_tnet_empty_glass_witness :
    ((⟨1, 0, 1, 1, 1, fun _ _ _ _ _ => 0⟩ : Tensor5).d1 = 0) ∧
    (TNet.forward (TNet.mk' 1 1
        ⟨⟨fun _ _ _ _ => 0, fun _ => 0⟩, ⟨fun _ _ _ _ => 0, fun _ => 0⟩,
          ⟨fun _ _ _ _ => 0, fun _ => 0⟩, ⟨fun _ _ _ _ => 0, fun _ => 0⟩⟩
        ⟨⟨fun _ _ _ _ => 0, fun _ => 0⟩, ⟨fun _ _ _ _ => 0, fun _ => 0⟩,
          ⟨fun _ _ _ _ => 0, fun _ => 0⟩, ⟨fun _ _ _ _ => 0, fun _ => 0⟩⟩)
        ⟨1, 0, 1, 1, 1, fun _ _ _ _ _ => 0⟩ (Tensor4.zeros 1 1 1 1) =
      TNetBackBone.forward (TNet.mk' 1 1
        ⟨⟨fun _ _ _ _ => 0, fun _ => 0⟩, ⟨fun _ _ _ _ => 0, fun _ => 0⟩,
          ⟨fun _ _ _ _ => 0, fun _ => 0⟩, ⟨fun _ _ _ _ => 0, fun _ => 0⟩⟩
        ⟨⟨fun _ _ _ _ => 0, fun _ => 0⟩, ⟨fun _ _ _ _ => 0, fun _ => 0⟩,
          ⟨fun _ _ _ _ => 0, fun _ => 0⟩, ⟨fun _ _ _ _ => 0, fun _ => 0⟩⟩).tnet_b
        (Tensor4.zeros (⟨1, 0, 1, 1, 1, fun _ _ _ _ _ => 0⟩ : Tensor5).d0 1
          (⟨1, 0, 1, 1, 1, fun _ _ _ _ _ => 0⟩ : Tensor5).d3
          (⟨1, 0, 1, 1, 1, fun _ _ _ _ _ => 0⟩ : Tensor5).d4) ∧
      (1 ≤ (⟨1, 0, 1, 1, 1, fun _ _ _ _ _ => 0⟩ : Tensor5).d3 →
        1 ≤ (⟨1, 0, 1, 1, 1, fun _ _ _ _ _ => 0⟩ : Tensor5).d4 →
        (TNet.forward (TNet.mk' 1 1
          ⟨⟨fun _ _ _ _ => 0, fun _ => 0⟩, ⟨fun _ _ _ _ => 0, fun _ => 0⟩,
            ⟨fun _ _ _ _ => 0, fun _ => 0⟩, ⟨fun _ _ _ _ => 0, fun _ => 0⟩⟩
          ⟨⟨fun _ _ _ _ => 0, fun _ => 0⟩, ⟨fun _ _ _ _ => 0, fun _ => 0⟩,
            ⟨fun _ _ _ _ => 0, fun _ => 0⟩, ⟨fun _ _ _ _ => 0, fun _ => 0⟩⟩)
          ⟨1, 0, 1, 1, 1, fun _ _ _ _ _ => 0⟩ (Tensor4.zeros 1 1 1 1)).isSome = true)) :=
  ⟨rfl,
    claim_C4_tnet_empty_glass 1 1
      ⟨⟨fun _ _ _ _ => 0, fun _ => 0⟩, ⟨fun _ _ _ _ => 0, fun _ => 0⟩,
        ⟨fun _ _ _ _ => 0, fun _ => 0⟩, ⟨fun _ _ _ _ => 0, fun _ => 0⟩⟩
      ⟨⟨fun _ _ _ _ => 0, fun _ => 0⟩, ⟨fun _ _ _ _ => 0, fun _ => 0⟩,
        ⟨fun _ _ _ _ => 0, fun _ => 0⟩, ⟨fun _ _ _ _ => 0, fun _ => 0⟩⟩
      ⟨1, 0, 1, 1, 1, fun _ _ _ _ _ => 0⟩ (Tensor4.zeros 1 1 1 1) rfl⟩

/-- C10: when the glass axis is empty, TNet.forward never reads its
conditioning argument rx: for any two conditioning maps rx1, rx2 of any
shapes the results are equal, and the result shape is determined by the glass
tensor alone, with spatial size taken from the last two axes of g (the
forward is a well-defined some exactly when those axes are nonempty). -/
theorem claim_C10_tnet_empty_glass_ignores_rx (in_channel hidden : ℕ)
    (fw bw : TNBW) (g : Tensor5) (rx1 rx2 : Tensor4) (hG : g.d1 = 0) :
    TNet.forward (TNet.mk' in_channel hidden fw bw) g rx1 =
      TNet.forward (TNet.mk' in_channel hidden fw bw) g rx2 ∧
    (TNet.forward (TNet.mk' in_channel hidden fw bw) g rx1).map Tensor4.sh =
      (if 1 ≤ g.d3 ∧ 1 ≤ g.d4 then some ⟨g.d0, 16, g.d3, g.d4⟩ else none) := by
  have heq : ∀ rx : Tensor4, TNet.forward (TNet.mk' in_channel hidden fw bw) g rx =
      TNetBackBone.forward (TNet.mk' in_channel hidden fw bw).tnet_b
        (Tensor4.zeros g.d0 hidden g.d3 g.d4) := by
    intro rx
    unfold TNet.forward
    simp only [hG]
    rfl
  rw [heq rx1, heq rx2]
  refine ⟨rfl, ?_⟩
  rw [tnetBackBone_forward_sh]
  by_cases hc : 1 ≤ g.d3 ∧ 1 ≤ g.d4
  · rw [if_pos hc]
    exact bbShf_eval hidden 16 bw g.d0 hidden g.d3 g.d4 rfl hc.1 hc.2
  · rw [if_neg hc]
    have hnone : convSh (TNet.mk' in_channel hidden fw bw).tnet_b.in_channel 64 3 1
        (Tensor4.zeros g.d0 hidden g.d3 g.d4).sh = none := by
      unfold convSh
      rw [if_neg]
      intro hcon
      obtain ⟨-, hh, hw⟩ := hcon
      have hh' : 3 ≤ g.d3 + 2 * 1 := hh
      have hw' : 3 ≤ g.d4 + 2 * 1 := hw
      exact hc ⟨by omega, by omega⟩
    show (convSh (TNet.mk' in_channel hidden fw bw).tnet_b.in_channel 64 3 1
        (Tensor4.zeros g.d0 hidden g.d3 g.d4).sh).bind _ = none
    rw [hnone]
    rfl

/-- Witness for C10 at a concrete empty glass tensor, with two conditioning
maps of different (and mismatched) shapes. -/
theorem claim_C10_tnet_empty_glass_ignores_rx_witness :
    ((⟨1, 0, 1, 1, 1, fun _ _ _ _ _ => 0⟩ : Tensor5).d1 = 0) ∧
    (TNet.forward (TNet.mk' 1 1
        ⟨⟨fun _ _ _ _ => 0, fun _ => 0⟩, ⟨fun _ _ _ _ => 0, fun _ => 0⟩,
          ⟨fun _ _ _ _ => 0, fun _ => 0⟩, ⟨fun _ _ _ _ => 0, fun _ => 0⟩⟩
        ⟨⟨fun _ _ _ _ => 0, fun _ => 0⟩, ⟨fun _ _ _ _ => 0, fun _ => 0⟩,
          ⟨fun _ _ _ _ => 0, fun _ => 0⟩, ⟨fun _ _ _ _ => 0, fun _ => 0⟩⟩)
        ⟨1, 0, 1, 1, 1, fun _ _ _ _ _ => 0⟩ (Tensor4.zeros 9 9 99 99) =
      TNet.forward (TNet.mk' 1 1
        ⟨⟨fun _ _ _ _ => 0, fun _ => 0⟩, ⟨fun _ _ _ _ => 0, fun _ => 0⟩,
          ⟨fun _ _ _ _ => 0, fun _ => 0⟩, ⟨fun _ _ _ _ => 0, fun _ => 0⟩⟩
        ⟨⟨fun _ _ _ _ => 0, fun _ => 0⟩, ⟨fun _ _ _ _ => 0, fun _ => 0⟩,
          ⟨fun _ _ _ _ => 0, fun _ => 0⟩, ⟨fun _ _ _ _ => 0, fun _ => 0⟩⟩)
        ⟨1, 0, 1, 1, 1, fun _ _ _ _ _ => 0⟩ (Tensor4.zeros 2 5 3 4) ∧
      (TNet.forward (TNet.mk' 1 1
        ⟨⟨fun _ _ _ _ => 0, fun _ => 0⟩, ⟨fun _ _ _ _ => 0, fun _ => 0⟩,
          ⟨fun _ _ _ _ => 0, fun _ => 0⟩, ⟨fun _ _ _ _ => 0, fun _ => 0⟩⟩
        ⟨⟨fun _ _ _ _ => 0, fun _ => 0⟩, ⟨fun _ _ _ _ => 0, fun _ => 0⟩,
          ⟨fun _ _ _ _ => 0, fun _ => 0⟩, ⟨fun _ _ _ _ => 0, fun _ => 0⟩⟩)
        ⟨1, 0, 1, 1, 1, fun _ _ _ _ _ => 0⟩ (Tensor4.zeros 9 9 99 99)).map Tensor4.sh =
      (if 1 ≤ (⟨1, 0, 1, 1, 1, fun _ _ _ _ _ => 0⟩ : Tensor5).d3 ∧
          1 ≤ (⟨1, 0, 1, 1, 1, fun _ _ _ _ _ => 0⟩ : Tensor5).d4
        then some ⟨(⟨1, 0, 1, 1, 1, fun _ _ _ _ _ => 0⟩ : Tensor5).d0, 16,
          (⟨1, 0, 1, 1, 1, fun _ _ _ _ _ => 0⟩ : Tensor5).d3,
          (⟨1, 0, 1, 1, 1, fun _ _ _ _ _ => 0⟩ : Tensor5).d4⟩
        else none)) :=
  ⟨rfl,
    claim_C10_tnet_empty_glass_ignores_rx 1 1
      ⟨⟨fun _ _ _ _ => 0, fun _ => 0⟩, ⟨fun _ _ _ _ => 0, fun _ => 0⟩,
        ⟨fun _ _ _ _ => 0, fun _ => 0⟩, ⟨fun _ _ _ _ => 0, fun _ => 0⟩⟩
      ⟨⟨fun _ _ _ _ => 0, fun _ => 0⟩, ⟨fun _ _ _ _ => 0, fun _ => 0⟩,
        ⟨fun _ _ _ _ => 0, fun _ => 0⟩, ⟨fun _ _ _ _ => 0, fun _ => 0⟩⟩
      ⟨1, 0, 1, 1, 1, fun _ _ _ _ _ => 0⟩ (Tensor4.zeros 9 9 99 99)
      (Tensor4.zeros 2 5 3 4) rfl⟩

/-- C6: the three decoder groups of ThreeWayUNet are parameter-isolated: for
every architecture configuration and input, replacing the weight values of
one group (its four Up blocks and its OutConv) leaves the outputs of the
other two groups unchanged, stated for each of the three groups. -/
theorem claim_C6_threeway_parameter_isolation (nch ncl : ℕ) (bil : Bool)
    (e : EncW) (g1 g1' g2 g2' g3 g3' : GroupW) (x : Tensor4) :
    (((ThreeWayUNet.mk' nch ncl bil e g1 g2 g3).forward x).map
        (fun t => (t.2.1, t.2.2)) =
      ((ThreeWayUNet.mk' nch ncl bil e g1' g2 g3).forward x).map
        fun t => (t.2.1, t.2.2)) ∧
    (((ThreeWayUNet.mk' nch ncl bil e g1 g2 g3).forward x).map
        (fun t => (t.1, t.2.2)) =
      ((ThreeWayUNet.mk' nch ncl bil e g1 g2' g3).forward x).map
        fun t => (t.1, t.2.2)) ∧
    (((ThreeWayUNet.mk' nch ncl bil e g1 g2 g3).forward x).map
        (fun t => (t.1, t.2.1)) =
      ((ThreeWayUNet.mk' nch ncl bil e g1 g2 g3').forward x).map
        fun t => (t.1, t.2.1)) :=
  ⟨threeway_isolation_g1_gen _ _ x rfl rfl rfl rfl rfl rfl rfl rfl rfl rfl
      rfl rfl rfl rfl rfl (fun _ _ _ _ _ => rfl),
    threeway_isolation_g2_gen _ _ x rfl rfl rfl rfl rfl rfl rfl rfl rfl rfl
      rfl rfl rfl rfl rfl (fun _ _ _ _ _ => rfl),
    threeway_isolation_g3_gen _ _ x rfl rfl rfl rfl rfl rfl rfl rfl rfl rfl
      rfl rfl rfl rfl rfl (fun _ _ _ _ _ => rfl)⟩

/-- C3: on the reference configuration (21 input channels before positional
augmentation, 17 glass channels, matching batch and spatial axes, spatial
size at least 16 so the four poolings stay nonempty) CrystalNet.forward
returns some (normal, oi, uv) in that fixed order with shapes
(B, 3, H, W), (B, n_oi, H, W) and (B, 2, H, W); as a pure function of its
parameters and inputs it is deterministic. -/
theorem claim_C3_crystalnet_output_shapes (n_oi : ℕ) (w : CNetW) (x : Tensor4)
    (g : Tensor5) (hc1 : x.d1 = 21) (hg2 : g.d2 = 17) (hg0 : g.d0 = x.d0)
    (hg3 : g.d3 = x.d2) (hg4 : g.d4 = x.d3) (hh : 16 ≤ x.d2) (hw : 16 ≤ x.d3) :
    ∃ normal oi uv : Tensor4,
      CrystalNet.forward (CrystalNet.mk' n_oi w) x g = some (normal, oi, uv) ∧
      normal.sh = ⟨x.d0, 3, x.d2, x.d3⟩ ∧ oi.sh = ⟨x.d0, n_oi, x.d2, x.d3⟩ ∧
      uv.sh = ⟨x.d0, 2, x.d2, x.d3⟩ := by
  have hxsh : x.sh = ⟨g.d0, 21, g.d3, g.d4⟩ := by
    unfold Tensor4.sh
    simp only [Sh.mk.injEq]
    omega
  have hsh := cnet_forward_sh (CNet.mk' n_oi w) x g
  rw [hxsh, cnet_shf_eval n_oi w g hg2 (by omega) (by omega)] at hsh
  obtain ⟨t, hft, hsht⟩ := Option.map_eq_some'.mp hsh
  obtain ⟨n1, o1, u1⟩ := t
  refine ⟨n1, o1, u1, ?_, ?_, ?_, ?_⟩
  · rw [crystalNet_forward_eq]
    exact hft
  · rw [← hg0, ← hg3, ← hg4]
    exact congrArg Prod.fst hsht
  · rw [← hg0, ← hg3, ← hg4]
    exact congrArg (fun p => p.2.1) hsht
  · rw [← hg0, ← hg3, ← hg4]
    exact congrArg (fun p => p.2.2) hsht

/-- Witness for C3 at the spec test configuration: batch 2, spatial size
16 by 16, G = 3 glass slices, all-zero weights and inputs. -/
theorem claim_C3_crystalnet_output_shapes_witness :
    ((Tensor4.zeros 2 21 16 16).d1 = 21 ∧
      (⟨2, 3, 17, 16, 16, fun _ _ _ _ _ => 0⟩ : Tensor5).d2 = 17 ∧
      16 ≤ (Tensor4.zeros 2 21 16 16).d2 ∧ 16 ≤ (Tensor4.zeros 2 21 16 16).d3) ∧
    (∃ normal oi uv : Tensor4,
      CrystalNet.forward
        (CrystalNet.mk' 5
          ⟨⟨fun _ _ => 0, fun _ => 0⟩,
            ⟨⟨fun _ _ _ _ => 0, fun _ _ _ _ => 0⟩, ⟨fun _ _ _ _ => 0, fun _ _ _ _ => 0⟩,
              ⟨fun _ _ _ _ => 0, fun _ _ _ _ => 0⟩, ⟨fun _ _ _ _ => 0, fun _ _ _ _ => 0⟩,
              ⟨fun _ _ _ _ => 0, fun _ _ _ _ => 0⟩⟩,
            ⟨⟨⟨fun _ _ _ _ => 0, fun _ => 0⟩, ⟨fun _ _ _ _ => 0, fun _ _ _ _ => 0⟩⟩,
              ⟨⟨fun _ _ _ _ => 0, fun _ => 0⟩, ⟨fun _ _ _ _ => 0, fun _ _ _ _ => 0⟩⟩,
              ⟨⟨fun _ _ _ _ => 0, fun _ => 0⟩, ⟨fun _ _ _ _ => 0, fun _ _ _ _ => 0⟩⟩,
              ⟨⟨fun _ _ _ _ => 0, fun _ => 0⟩, ⟨fun _ _ _ _ => 0, fun _ _ _ _ => 0⟩⟩,
              ⟨fun _ _ _ _ => 0, fun _ => 0⟩⟩,
            ⟨⟨fun _ _ _ _ => 0, fun _ => 0⟩, ⟨fun _ _ _ _ => 0, fun _ => 0⟩,
              ⟨fun _ _ _ _ => 0, fun _ => 0⟩, ⟨fun _ _ _ _ => 0, fun _ => 0⟩⟩,
            ⟨⟨fun _ _ _ _ => 0, fun _ => 0⟩, ⟨fun _ _ _ _ => 0, fun _ => 0⟩,
              ⟨fun _ _ _ _ => 0, fun _ => 0⟩, ⟨fun _ _ _ _ => 0, fun _ => 0⟩⟩,
            ⟨⟨fun _ _ _ _ => 0, fun _ _ _ _ => 0⟩, ⟨fun _ _ _ _ => 0, fun _ _ _ _ => 0⟩,
              ⟨fun _ _ _ _ => 0, fun _ _ _ _ => 0⟩, ⟨fun _ _ _ _ => 0, fun _ _ _ _ => 0⟩,
              ⟨fun _ _ _ _ => 0, fun _ _ _ _ => 0⟩⟩,
            ⟨⟨⟨fun _ _ _ _ => 0, fun _ => 0⟩, ⟨fun _ _ _ _ => 0, fun _ _ _ _ => 0⟩⟩,
              ⟨⟨fun _ _ _ _ => 0, fun _ => 0⟩, ⟨fun _ _ _ _ => 0, fun _ _ _ _ => 0⟩⟩,
              ⟨⟨fun _ _ _ _ => 0, fun _ => 0⟩, ⟨fun _ _ _ _ => 0, fun _ _ _ _ => 0⟩⟩,
              ⟨⟨fun _ _ _ _ => 0, fun _ => 0⟩, ⟨fun _ _ _ _ => 0, fun _ _ _ _ => 0⟩⟩,
              ⟨fun _ _ _ _ => 0, fun _ => 0⟩⟩,
            ⟨⟨⟨fun _ _ _ _ => 0, fun _ => 0⟩, ⟨fun _ _ _ _ => 0, fun _ _ _ _ => 0⟩⟩,
              ⟨⟨fun _ _ _ _ => 0, fun _ => 0⟩, ⟨fun _ _ _ _ => 0, fun _ _ _ _ => 0⟩⟩,
              ⟨⟨fun _ _ _ _ => 0, fun _ => 0⟩, ⟨fun _ _ _ _ => 0, fun _ _ _ _ => 0⟩⟩,
              ⟨⟨fun _ _ _ _ => 0, fun _ => 0⟩, ⟨fun _ _ _ _ => 0, fun _ _ _ _ => 0⟩⟩,
              ⟨fun _ _ _ _ => 0, fun _ => 0⟩⟩,
            ⟨⟨⟨fun _ _ _ _ => 0, fun _ => 0⟩, ⟨fun _ _ _ _ => 0, fun _ _ _ _ => 0⟩⟩,
              ⟨⟨fun _ _ _ _ => 0, fun _ => 0⟩, ⟨fun _ _ _ _ => 0, fun _ _ _ _ => 0⟩⟩,
              ⟨⟨fun _ _ _ _ => 0, fun _ => 0⟩, ⟨fun _ _ _ _ => 0, fun _ _ _ _ => 0⟩⟩,
              ⟨⟨fun _ _ _ _ => 0, fun _ => 0⟩, ⟨fun _ _ _ _ => 0, fun _ _ _ _ => 0⟩⟩,
              ⟨fun _ _ _ _ => 0, fun _ => 0⟩⟩,
            ⟨⟨fun _ _ _ _ => 0, fun _ => 0⟩, ⟨fun _ _ _ _ => 0, fun _ => 0⟩,
              ⟨fun _ _ _ _ => 0, fun _ => 0⟩, ⟨fun _ _ _ _ => 0, fun _ => 0⟩⟩,
            ⟨⟨fun _ _ _ _ => 0, fun _ => 0⟩, ⟨fun _ _ _ _ => 0, fun _ => 0⟩,
              ⟨fun _ _ _ _ => 0, fun _ => 0⟩, ⟨fun _ _ _ _ => 0, fun _ => 0⟩⟩⟩)
        (Tensor4.zeros 2 21 16 16) ⟨2, 3, 17, 16, 16, fun _ _ _ _ _ => 0⟩ =
        some (normal, oi, uv) ∧
      normal.sh = ⟨(Tensor4.zeros 2 21 16 16).d0, 3, (Tensor4.zeros 2 21 16 16).d2,
        (Tensor4.zeros 2 21 16 16).d3⟩ ∧
      oi.sh = ⟨(Tensor4.zeros 2 21 16 16).d0, 5, (Tensor4.zeros 2 21 16 16).d2,
        (Tensor4.zeros 2 21 16 16).d3⟩ ∧
      uv.sh = ⟨(Tensor4.zeros 2 21 16 16).d0, 2, (Tensor4.zeros 2 21 16 16).d2,
        (Tensor4.zeros 2 21 16 16).d3⟩) :=
  ⟨⟨rfl, rfl, by decide, by decide⟩,
    claim_C3_crystalnet_output_shapes 5 _ (Tensor4.zeros 2 21 16 16)
      ⟨2, 3, 17, 16, 16, fun _ _ _ _ _ => 0⟩ rfl rfl rfl rfl rfl
      (by decide) (by decide)⟩

/-- C3 counterexample: the shape contract does not hold for every spatial
size.  At H = W = 8 (with the reference channel counts and an empty glass
axis) the fourth encoder pooling receives a 1 by 1 feature map, the 2 by 2
max pooling raises a shape error, and CrystalNet.forward returns no triple at
all; so the claim as stated, quantifying over every H and W, is false. -/
theorem claim_C3_counterexample :
    CrystalNet.forward
      (CrystalNet.mk' 1
        ⟨⟨fun _ _ => 0, fun _ => 0⟩,
          ⟨⟨fun _ _ _ _ => 0, fun _ _ _ _ => 0⟩, ⟨fun _ _ _ _ => 0, fun _ _ _ _ => 0⟩,
            ⟨fun _ _ _ _ => 0, fun _ _ _ _ => 0⟩, ⟨fun _ _ _ _ => 0, fun _ _ _ _ => 0⟩,
            ⟨fun _ _ _ _ => 0, fun _ _ _ _ => 0⟩⟩,
          ⟨⟨⟨fun _ _ _ _ => 0, fun _ => 0⟩, ⟨fun _ _ _ _ => 0, fun _ _ _ _ => 0⟩⟩,
            ⟨⟨fun _ _ _ _ => 0, fun _ => 0⟩, ⟨fun _ _ _ _ => 0, fun _ _ _ _ => 0⟩⟩,
            ⟨⟨fun _ _ _ _ => 0, fun _ => 0⟩, ⟨fun _ _ _ _ => 0, fun _ _ _ _ => 0⟩⟩,
            ⟨⟨fun _ _ _ _ => 0, fun _ => 0⟩, ⟨fun _ _ _ _ => 0, fun _ _ _ _ => 0⟩⟩,
            ⟨fun _ _ _ _ => 0, fun _ => 0⟩⟩,
          ⟨⟨fun _ _ _ _ => 0, fun _ => 0⟩, ⟨fun _ _ _ _ => 0, fun _ => 0⟩,
            ⟨fun _ _ _ _ => 0, fun _ => 0⟩, ⟨fun _ _ _ _ => 0, fun _ => 0⟩⟩,
          ⟨⟨fun _ _ _ _ => 0, fun _ => 0⟩, ⟨fun _ _ _ _ => 0, fun _ => 0⟩,
            ⟨fun _ _ _ _ => 0, fun _ => 0⟩, ⟨fun _ _ _ _ => 0, fun _ => 0⟩⟩,
          ⟨⟨fun _ _ _ _ => 0, fun _ _ _ _ => 0⟩, ⟨fun _ _ _ _ => 0, fun _ _ _ _ => 0⟩,
            ⟨fun _ _ _ _ => 0, fun _ _ _ _ => 0⟩, ⟨fun _ _ _ _ => 0, fun _ _ _ _ => 0⟩,
            ⟨fun _ _ _ _ => 0, fun _ _ _ _ => 0⟩⟩,
          ⟨⟨⟨fun _ _ _ _ => 0, fun _ => 0⟩, ⟨fun _ _ _ _ => 0, fun _ _ _ _ => 0⟩⟩,
            ⟨⟨fun _ _ _ _ => 0, fun _ => 0⟩, ⟨fun _ _ _ _ => 0, fun _ _ _ _ => 0⟩⟩,
            ⟨⟨fun _ _ _ _ => 0, fun _ => 0⟩, ⟨fun _ _ _ _ => 0, fun _ _ _ _ => 0⟩⟩,
            ⟨⟨fun _ _ _ _ => 0, fun _ => 0⟩, ⟨fun _ _ _ _ => 0, fun _ _ _ _ => 0⟩⟩,
            ⟨fun _ _ _ _ => 0, fun _ => 0⟩⟩,
          ⟨⟨⟨fun _ _ _ _ => 0, fun _ => 0⟩, ⟨fun _ _ _ _ => 0, fun _ _ _ _ => 0⟩⟩,
            ⟨⟨fun _ _ _ _ => 0, fun _ => 0⟩, ⟨fun _ _ _ _ => 0, fun _ _ _ _ => 0⟩⟩,
            ⟨⟨fun _ _ _ _ => 0, fun _ => 0⟩, ⟨fun _ _ _ _ => 0, fun _ _ _ _ => 0⟩⟩,
            ⟨⟨fun _ _ _ _ => 0, fun _ => 0⟩, ⟨fun _ _ _ _ => 0, fun _ _ _ _ => 0⟩⟩,
            ⟨fun _ _ _ _ => 0, fun _ => 0⟩⟩,
          ⟨⟨⟨fun _ _ _ _ => 0, fun _ => 0⟩, ⟨fun _ _ _ _ => 0, fun _ _ _ _ => 0⟩⟩,
            ⟨⟨fun _ _ _ _ => 0, fun _ => 0⟩, ⟨fun _ _ _ _ => 0, fun _ _ _ _ => 0⟩⟩,
            ⟨⟨fun _ _ _ _ => 0, fun _ => 0⟩, ⟨fun _ _ _ _ => 0, fun _ _ _ _ => 0⟩⟩,
            ⟨⟨fun _ _ _ _ => 0, fun _ => 0⟩, ⟨fun _ _ _ _ => 0, fun _ _ _ _ => 0⟩⟩,
            ⟨fun _ _ _ _ => 0, fun _ => 0⟩⟩,
          ⟨⟨fun _ _ _ _ => 0, fun _ => 0⟩, ⟨fun _ _ _ _ => 0, fun _ => 0⟩,
            ⟨fun _ _ _ _ => 0, fun _ => 0⟩, ⟨fun _ _ _ _ => 0, fun _ => 0⟩⟩,
          ⟨⟨fun _ _ _ _ => 0, fun _ => 0⟩, ⟨fun _ _ _ _ => 0, fun _ => 0⟩,
            ⟨fun _ _ _ _ => 0, fun _ => 0⟩, ⟨fun _ _ _ _ => 0, fun _ => 0⟩⟩⟩)
      (Tensor4.zeros 1 21 8 8) ⟨1, 0, 17, 8, 8, fun _ _ _ _ _ => 0⟩ = none := by
  rw [crystalNet_forward_eq]
  have hsh := cnet_forward_sh
    (CNet.mk' 1
      ⟨⟨fun _ _ => 0, fun _ => 0⟩,
        ⟨⟨fun _ _ _ _ => 0, fun _ _ _ _ => 0⟩, ⟨fun _ _ _ _ => 0, fun _ _ _ _ => 0⟩,
          ⟨fun _ _ _ _ => 0, fun _ _ _ _ => 0⟩, ⟨fun _ _ _ _ => 0, fun _ _ _ _ => 0⟩,
          ⟨fun _ _ _ _ => 0, fun _ _ _ _ => 0⟩⟩,
        ⟨⟨⟨fun _ _ _ _ => 0, fun _ => 0⟩, ⟨fun _ _ _ _ => 0, fun _ _ _ _ => 0⟩⟩,
          ⟨⟨fun _ _ _ _ => 0, fun _ => 0⟩, ⟨fun _ _ _ _ => 0, fun _ _ _ _ => 0⟩⟩,
          ⟨⟨fun _ _ _ _ => 0, fun _ => 0⟩, ⟨fun _ _ _ _ => 0, fun _ _ _ _ => 0⟩⟩,
          ⟨⟨fun _ _ _ _ => 0, fun _ => 0⟩, ⟨fun _ _ _ _ => 0, fun _ _ _ _ => 0⟩⟩,
          ⟨fun _ _ _ _ => 0, fun _ => 0⟩⟩,
        ⟨⟨fun _ _ _ _ => 0, fun _ => 0⟩, ⟨fun _ _ _ _ => 0, fun _ => 0⟩,
          ⟨fun _ _ _ _ => 0, fun _ => 0⟩, ⟨fun _ _ _ _ => 0, fun _ => 0⟩⟩,
        ⟨⟨fun _ _ _ _ => 0, fun _ => 0⟩, ⟨fun _ _ _ _ => 0, fun _ => 0⟩,
          ⟨fun _ _ _ _ => 0, fun _ => 0⟩, ⟨fun _ _ _ _ => 0, fun _ => 0⟩⟩,
        ⟨⟨fun _ _ _ _ => 0, fun _ _ _ _ => 0⟩, ⟨fun _ _ _ _ => 0, fun _ _ _ _ => 0⟩,
          ⟨fun _ _ _ _ => 0, fun _ _ _ _ => 0⟩, ⟨fun _ _ _ _ => 0, fun _ _ _ _ => 0⟩,
          ⟨fun _ _ _ _ => 0, fun _ _ _ _ => 0⟩⟩,
        ⟨⟨⟨fun _ _ _ _ => 0, fun _ => 0⟩, ⟨fun _ _ _ _ => 0, fun _ _ _ _ => 0⟩⟩,
          ⟨⟨fun _ _ _ _ => 0, fun _ => 0⟩, ⟨fun _ _ _ _ => 0, fun _ _ _ _ => 0⟩⟩,
          ⟨⟨fun _ _ _ _ => 0, fun _ => 0⟩, ⟨fun _ _ _ _ => 0, fun _ _ _ _ => 0⟩⟩,
          ⟨⟨fun _ _ _ _ => 0, fun _ => 0⟩, ⟨fun _ _ _ _ => 0, fun _ _ _ _ => 0⟩⟩,
          ⟨fun _ _ _ _ => 0, fun _ => 0⟩⟩,
        ⟨⟨⟨fun _ _ _ _ => 0, fun _ => 0⟩, ⟨fun _ _ _ _ => 0, fun _ _ _ _ => 0⟩⟩,
          ⟨⟨fun _ _ _ _ => 0, fun _ => 0⟩, ⟨fun _ _ _ _ => 0, fun _ _ _ _ => 0⟩⟩,
          ⟨⟨fun _ _ _ _ => 0, fun _ => 0⟩, ⟨fun _ _ _ _ => 0, fun _ _ _ _ => 0⟩⟩,
          ⟨⟨fun _ _ _ _ => 0, fun _ => 0⟩, ⟨fun _ _ _ _ => 0, fun _ _ _ _ => 0⟩⟩,
          ⟨fun _ _ _ _ => 0, fun _ => 0⟩⟩,
        ⟨⟨⟨fun _ _ _ _ => 0, fun _ => 0⟩, ⟨fun _ _ _ _ => 0, fun _ _ _ _ => 0⟩⟩,
          ⟨⟨fun _ _ _ _ => 0, fun _ => 0⟩, ⟨fun _ _ _ _ => 0, fun _ _ _ _ => 0⟩⟩,
          ⟨⟨fun _ _ _ _ => 0, fun _ => 0⟩, ⟨fun _ _ _ _ => 0, fun _ _ _ _ => 0⟩⟩,
          ⟨⟨fun _ _ _ _ => 0, fun _ => 0⟩, ⟨fun _ _ _ _ => 0, fun _ _ _ _ => 0⟩⟩,
          ⟨fun _ _ _ _ => 0, fun _ => 0⟩⟩,
        ⟨⟨fun _ _ _ _ => 0, fun _ => 0⟩, ⟨fun _ _ _ _ => 0, fun _ => 0⟩,
          ⟨fun _ _ _ _ => 0, fun _ => 0⟩, ⟨fun _ _ _ _ => 0, fun _ => 0⟩⟩,
        ⟨⟨fun _ _ _ _ => 0, fun _ => 0⟩, ⟨fun _ _ _ _ => 0, fun _ => 0⟩,
          ⟨fun _ _ _ _ => 0, fun _ => 0⟩, ⟨fun _ _ _ _ => 0, fun _ => 0⟩⟩⟩)
    (Tensor4.zeros 1 21 8 8) ⟨1, 0, 17, 8, 8, fun _ _ _ _ _ => 0⟩
  rw [show (CNet.mk' 1 _).shf (Tensor4.zeros 1 21 8 8).sh
      ⟨1, 0, 17, 8, 8, fun _ _ _ _ _ => 0⟩ = none from by decide] at hsh
  exact Option.map_eq_none'.mp hsh
